import Mathlib

/-!
Verification of the sql_parser repository (C++ sources under src/) against its
natural-language specification.

The development shallowly embeds the code of `src/src/lexer.cc`,
`src/include/sql/lexer.h`, `src/include/sql/parser.h`, `src/src/parser.cc` and
the printers of `src/src/ast.cc` as executable Lean functions:

* machine strings become `String` / `List Char`;
* the lexer's mutable cursor (`m_pos`, `m_line`, `m_col`) becomes the record
  `Lexer`, and every lexing routine returns the updated record;
* the parser's state stack (`std::vector<State>`, top at the back) becomes a
  `List PState` whose head is the top of the stack;
* C++ `throw std::runtime_error(msg)` becomes `Except.error msg`; for messages
  built with dynamic position formatting only the static text is kept, except
  where the dynamic part is a plain string concatenation, which is kept;
* `std::unique_ptr` children that may be null become `Option`;
* the parser's unbounded loops and mutual recursion take an explicit `fuel`
  argument; `fuel` exhaustion yields a distinguished error that no theorem
  relies on (all evaluations use ample fuel).

Statement and expression parsing follow `parser.cc` exactly, including its
quirks: `parse_factor` returns `dynamic_cast<Binary_op*>(left.release())`,
which is a null pointer whenever the parsed expression is not a binary
operation, and `parse_table_references` throws "JOINs are not supported" after
recognizing a join clause.
-/

set_option maxRecDepth 10000

namespace SqlParser

/-! ## Character classification (C `<cctype>` on ASCII input) -/

/-- C `isspace` for the ASCII range. -/
def isSpaceC (c : Char) : Bool :=
  c = ' ' || c = '\t' || c = '\n' || c = '\x0b' || c = '\x0c' || c = '\r'

/-- C `isdigit`. -/
def isDigitC (c : Char) : Bool :=
  '0' ≤ c && c ≤ '9'

/-- C `isalpha` for the ASCII range. -/
def isAlphaC (c : Char) : Bool :=
  ('A' ≤ c && c ≤ 'Z') || ('a' ≤ c && c ≤ 'z')

/-- C `isalnum` for the ASCII range. -/
def isAlnumC (c : Char) : Bool :=
  isAlphaC c || isDigitC c

/-- C `::toupper` for the ASCII range. -/
def toUpperC (c : Char) : Char :=
  if 'a' ≤ c && c ≤ 'z' then Char.ofNat (c.toNat - 32) else c

/-- Uppercasing of a whole string, as done by `std::transform(.., ::toupper)`
in `Lexer::lex_identifier` and `Parser::to_upper`. -/
def asciiUpper (s : String) : String :=
  String.mk (s.data.map toUpperC)

/-- Digit value of an ASCII digit. -/
def digitVal (c : Char) : Nat := c.toNat - 48

/-- `std::stoul` / `std::stoull` on the lexeme values this parser feeds them:
the numeric value of the longest digit prefix. -/
def stoullNat (s : String) : Nat :=
  (s.data.takeWhile isDigitC).foldl (fun n c => n * 10 + digitVal c) 0

/-! ## Lexeme model (`include/sql/lexer.h`) -/

/-- `enum class Lexeme_type`. -/
inductive LexemeType where
  | UNDEFINED
  | KEYWORD
  | IDENTIFIER
  | NUMBER
  | STRING_LITERAL
  | OPERATOR
  | PUNCTUATION
  | WHITESPACE
  | END_OF_FILE
deriving DecidableEq, Repr

/-- `struct Lexeme` with its in-class member initializers. -/
structure Lexeme where
  type : LexemeType := LexemeType.UNDEFINED
  value : String := ""
  line : Nat := 0
  col : Nat := 0
deriving DecidableEq, Repr

/-- The default-constructed `Lexeme{}`. -/
def Lexeme.undef : Lexeme := {}

/-- `Lexer::Eof`. -/
def eofLexeme : Lexeme :=
  { type := LexemeType.END_OF_FILE, value := "", line := 0, col := 0 }

/-! ## Lexer state and lexing routines (`lexer.cc`) -/

/-- The lexer's mutable fields `m_pos`, `m_line`, `m_col` together with the
borrowed input `m_input`. -/
structure Lexer where
  pos : Nat
  line : Nat
  col : Nat
  input : List Char
deriving DecidableEq, Repr

/-- `Lexer::Lexer(std::string_view)`: `m_pos()`, `m_line(1)`, `m_col(1)`. -/
def Lexer.start (input : List Char) : Lexer :=
  { pos := 0, line := 1, col := 1, input := input }

/-- Loop body of `Lexer::skip_whitespace`, acting on the characters from
`m_pos` on; returns the number of consumed characters and the updated
line/column counters. -/
def skipWsCore : List Char → Nat → Nat → Nat × Nat × Nat
  | [], line, col => (0, line, col)
  | c :: cs, line, col =>
    if isSpaceC c then
      let r := if c = '\n' then skipWsCore cs (line + 1) 1 else skipWsCore cs line (col + 1)
      (r.1 + 1, r.2)
    else
      (0, line, col)

/-- `Lexer::skip_whitespace`. -/
def Lexer.skipWhitespace (lx : Lexer) : Lexer :=
  let r := skipWsCore (lx.input.drop lx.pos) lx.line lx.col
  { lx with pos := lx.pos + r.1, line := r.2.1, col := r.2.2 }

/-- The fixed keyword set of `Lexer::lex_identifier`. -/
def keywords : List String :=
  ["AND", "ASC", "BY", "CROSS", "DELETE", "DESC", "DISTINCT", "FALSE", "FETCH",
   "FIRST", "FROM", "FULL", "GROUP", "HAVING", "INNER", "INSERT", "JOIN",
   "LAST", "LEFT", "LIKE", "LIMIT", "NATURAL", "NEXT", "NOT", "NULL", "OFFSET",
   "ON", "ONLY", "OR", "ORDER", "OUTER", "RECURSIVE", "RIGHT", "ROW", "ROWS",
   "SELECT", "SET", "TRUE", "UPDATE", "USING", "WHERE", "WITH", "WITHOUT"]

/-- Character class consumed by the scanning loop of `Lexer::lex_identifier`:
`std::isalnum(c) || c == '_'`. -/
def isIdentChar (c : Char) : Bool :=
  isAlnumC c || c = '_'

/-- `Lexer::lex_identifier`. The lexeme keeps the original casing; the
upper-cased copy is only compared against the keyword set. -/
def Lexer.lexIdentifier (lx : Lexer) : Lexeme × Lexer :=
  let taken := (lx.input.drop lx.pos).takeWhile isIdentChar
  let value := String.mk taken
  let type :=
    if keywords.contains (asciiUpper value) then LexemeType.KEYWORD
    else LexemeType.IDENTIFIER
  (⟨type, value, lx.line, lx.col⟩,
   { lx with pos := lx.pos + taken.length, col := lx.col + taken.length })

/-- Loop body of `Lexer::lex_number`: digits with at most one decimal point,
the flag tracking whether a `.` was already consumed. -/
def lexNumCore : List Char → Bool → List Char
  | [], _ => []
  | c :: cs, hasDecimal =>
    if c = '.' && !hasDecimal then c :: lexNumCore cs true
    else if isDigitC c then c :: lexNumCore cs hasDecimal
    else []

/-- `Lexer::lex_number`. -/
def Lexer.lexNumber (lx : Lexer) : Lexeme × Lexer :=
  let taken := lexNumCore (lx.input.drop lx.pos) false
  (⟨LexemeType.NUMBER, String.mk taken, lx.line, lx.col⟩,
   { lx with pos := lx.pos + taken.length, col := lx.col + taken.length })

/-- Loop body of `Lexer::lex_string`, acting on the characters after the
opening quote.  Returns the decoded contents and the number of consumed
characters including the closing quote, or `none` when the loop runs off the
end of the input (the C++ code then throws).  The branches appear in the
source's order: backslash escape (needs one more character), doubled quote
(needs one more character), terminating quote, ordinary character. -/
def lexStrCore : List Char → Option (List Char × Nat)
  | [] => none
  | '\\' :: c :: cs => (lexStrCore cs).map (fun r => (c :: r.1, r.2 + 2))
  | '\'' :: '\'' :: cs => (lexStrCore cs).map (fun r => ('\'' :: r.1, r.2 + 2))
  | '\'' :: _ => some ([], 1)
  | c :: cs => (lexStrCore cs).map (fun r => (c :: r.1, r.2 + 1))

/-- `Lexer::lex_string`.  The opening quote is skipped without touching
`m_col`; `start_col` is therefore the opening quote's column.  Every consumed
character inside the loop and the closing quote advance `m_col`. -/
def Lexer.lexString (lx : Lexer) : Except String (Lexeme × Lexer) :=
  match lexStrCore (lx.input.drop (lx.pos + 1)) with
  | none => Except.error "Unterminated string literal"
  | some r =>
    Except.ok (⟨LexemeType.STRING_LITERAL, String.mk r.1, lx.line, lx.col⟩,
      { lx with pos := lx.pos + 1 + r.2, col := lx.col + r.2 })

/-- `Lexer::lex_operator`: try the two-character operators `<=`, `>=`, `!=`,
`<>` first, otherwise emit a single-character OPERATOR lexeme. -/
def Lexer.lexOperator (lx : Lexer) : Lexeme × Lexer :=
  match lx.input.drop lx.pos with
  | [] =>
    -- unreachable: only called when a character is available
    (⟨LexemeType.OPERATOR, "", lx.line, lx.col⟩,
     { lx with pos := lx.pos + 1, col := lx.col + 1 })
  | c :: rest =>
    match rest with
    | d :: _ =>
      let op := String.mk [c, d]
      if op = "<=" || op = ">=" || op = "!=" || op = "<>" then
        (⟨LexemeType.OPERATOR, op, lx.line, lx.col⟩,
         { lx with pos := lx.pos + 2, col := lx.col + 2 })
      else
        (⟨LexemeType.OPERATOR, String.mk [c], lx.line, lx.col⟩,
         { lx with pos := lx.pos + 1, col := lx.col + 1 })
    | [] =>
      (⟨LexemeType.OPERATOR, String.mk [c], lx.line, lx.col⟩,
       { lx with pos := lx.pos + 1, col := lx.col + 1 })

/-- One pull on `Lexer::next_token`.  The parser constructs a fresh coroutine
for every token, so each call produces exactly one lexeme (or the Eof
sentinel, or the unterminated-string failure). -/
def Lexer.nextToken (lx : Lexer) : Except String (Lexeme × Lexer) :=
  if lx.pos < lx.input.length then
    let lx1 := lx.skipWhitespace
    match lx1.input.drop lx1.pos with
    | [] => Except.ok (eofLexeme, lx1)
    | c :: _ =>
      if isAlphaC c || c = '_' then Except.ok lx1.lexIdentifier
      else if isDigitC c then Except.ok lx1.lexNumber
      else if c = '\'' then lx1.lexString
      else Except.ok lx1.lexOperator
  else
    Except.ok (eofLexeme, lx)

/-! ## Parser state and primitive operations (`include/sql/parser.h`) -/

/-- `struct Parser::State`. -/
structure PState where
  pos : Nat := 0
  lexeme : Lexeme := {}
  prev : Lexeme := {}
  line : Nat := 1
  col : Nat := 1
deriving DecidableEq, Repr

/-- The parser: the referenced lexer plus the state stack `m_state_stack`.
The head of `stack` is the back (top) of the C++ vector. -/
structure Parser where
  lexer : Lexer
  stack : List PState
deriving DecidableEq, Repr

/-- Current lexeme, i.e. `m_state_stack.back().m_lexeme` (undefined lexeme for
an empty stack, which never occurs in a run). -/
def Parser.cur (p : Parser) : Lexeme :=
  match p.stack with
  | [] => Lexeme.undef
  | st :: _ => st.lexeme

/-- Previous lexeme, i.e. `m_state_stack.back().m_prev_lexeme`. -/
def Parser.prevLexeme (p : Parser) : Lexeme :=
  match p.stack with
  | [] => Lexeme.undef
  | st :: _ => st.prev

/-- `Parser::advance`: skip whitespace, then pull the next lexeme; the old
current lexeme becomes the previous one. -/
def Parser.advance (p : Parser) : Except String Parser :=
  let lx1 := p.lexer.skipWhitespace
  match p.stack with
  | [] => Except.error "empty state stack"
  | st :: rest =>
    match lx1.nextToken with
    | Except.error e => Except.error e
    | Except.ok (lexeme, lx2) =>
      Except.ok ⟨lx2, { st with prev := st.lexeme, lexeme := lexeme } :: rest⟩

/-- `Parser::Parser(Lexer&)`: push the baseline state, then fetch the first
token. -/
def Parser.init (input : List Char) : Except String Parser :=
  let lexer := Lexer.start input
  Parser.advance ⟨lexer, [{ pos := lexer.pos, lexeme := {}, prev := {}, line := 1, col := 1 }]⟩

/-- `Parser::expect(Lexeme_type)`.  The source formats the expected and actual
kinds, the previous and current lexeme and the position into the message; the
embedding keeps the static prefix. -/
def Parser.expectType (t : LexemeType) (p : Parser) : Except String Parser :=
  match p.stack with
  | [] => Except.error "empty state stack"
  | st :: _ =>
    if st.lexeme.type = t then p.advance
    else Except.error "Unexpected token type"

/-- `Parser::expect(Lexeme_type, const std::string&)`. -/
def Parser.expectTV (t : LexemeType) (v : String) (p : Parser) : Except String Parser :=
  match p.stack with
  | [] => Except.error "empty state stack"
  | st :: _ =>
    if st.lexeme.type = t ∧ st.lexeme.value = v then p.advance
    else Except.error "Unexpected token"

/-- `Parser::match(Lexeme_type)`: advance on a type match, reporting whether
the match happened. -/
def Parser.matchType (t : LexemeType) (p : Parser) : Except String (Bool × Parser) :=
  match p.stack with
  | [] => Except.error "empty state stack"
  | st :: _ =>
    if st.lexeme.type = t then
      match p.advance with
      | Except.error e => Except.error e
      | Except.ok q => Except.ok (true, q)
    else Except.ok (false, p)

/-- `Parser::match(Lexeme_type, const std::string&)`. -/
def Parser.matchTV (t : LexemeType) (v : String) (p : Parser) : Except String (Bool × Parser) :=
  match p.stack with
  | [] => Except.error "empty state stack"
  | st :: _ =>
    if st.lexeme.type = t ∧ st.lexeme.value = v then
      match p.advance with
      | Except.error e => Except.error e
      | Except.ok q => Except.ok (true, q)
    else Except.ok (false, p)

/-- The `for (size_t i{}; i < offset; ++i) advance();` loop inside
`Parser::peek`. -/
def Parser.advanceN : Nat → Parser → Except String Parser
  | 0, p => Except.ok p
  | n + 1, p =>
    match p.advance with
    | Except.error e => Except.error e
    | Except.ok q => Parser.advanceN n q

/-- `Parser::peek(size_t)`: record `m_lexer.m_pos` and the current lexeme,
advance `offset` times, read the lexeme, then restore exactly the recorded
byte position and current lexeme.  The previous lexeme and the lexer's
line/column counters are not restored — as in the source. -/
def Parser.peek (offset : Nat) (p : Parser) : Except String (Lexeme × Parser) :=
  match p.stack with
  | [] => Except.error "empty state stack"
  | st :: _ =>
    let savedPos := p.lexer.pos
    let savedLexeme := st.lexeme
    match Parser.advanceN offset p with
    | Except.error e => Except.error e
    | Except.ok q =>
      match q.stack with
      | [] => Except.error "empty state stack"
      | st2 :: rest2 =>
        Except.ok (st2.lexeme,
          ⟨{ q.lexer with pos := savedPos }, { st2 with lexeme := savedLexeme } :: rest2⟩)

/-- `Parser::peek()` is `peek(1)`. -/
def Parser.peek1 (p : Parser) : Except String (Lexeme × Parser) :=
  Parser.peek 1 p

/-- `Parser::match_but_dont_advance`. -/
def Parser.matchNoAdvance (t : LexemeType) (v : String) (p : Parser) : Bool :=
  match p.stack with
  | [] => false
  | st :: _ => st.lexeme.type = t ∧ st.lexeme.value = v

/-- `Parser::peek_is_operator`. -/
def Parser.peekIsOperator (op : String) (p : Parser) : Except String (Bool × Parser) :=
  match p.peek1 with
  | Except.error e => Except.error e
  | Except.ok (next, q) =>
    Except.ok (next.type = LexemeType.OPERATOR ∧ next.value = op, q)

/-- `Parser::is_whitespace_before`. -/
def Parser.isWhitespaceBefore (lexeme : Lexeme) (p : Parser) : Bool :=
  match p.stack with
  | [] => false
  | st :: _ => decide (lexeme.col > st.col + st.lexeme.value.length)

/-- `Parser::save_state`: push a copy of the top state; the returned id is the
index of the pushed copy, i.e. the previous stack size. -/
def Parser.saveState (p : Parser) : Nat × Parser :=
  match p.stack with
  | [] => (0, p)
  | st :: rest => ((st :: rest).length, ⟨p.lexer, st :: st :: rest⟩)

/-- `Parser::restore_state`: reject an out-of-range id, otherwise
`m_state_stack.resize(state_id)` — keep the bottom `id` states.  The lexer is
left untouched. -/
def Parser.restoreState (stateId : Nat) (p : Parser) : Except String Parser :=
  if stateId ≥ p.stack.length then
    Except.error "Invalid parser state ID"
  else
    Except.ok ⟨p.lexer, p.stack.drop (p.stack.length - stateId)⟩

/-- `Parser::backup`: one-token rewind of the top state (Nat subtraction
models the `size_t` arithmetic on `m_pos`). -/
def Parser.backup (p : Parser) : Except String Parser :=
  match p.stack with
  | [] => Except.error "empty state stack"
  | st :: rest =>
    if st.prev.type = LexemeType.UNDEFINED then
      Except.error "Cannot backup: no previous token"
    else
      Except.ok ⟨p.lexer,
        { pos := st.pos - st.lexeme.value.length,
          line := st.lexeme.line,
          col := st.lexeme.col,
          lexeme := st.prev,
          prev := Lexeme.undef } :: rest⟩

/-! ## AST model (`include/sql/ast.h`, restricted to the node kinds the
parser in `parser.cc` constructs).  `std::unique_ptr` expression children may
be null — `parse_factor`'s `dynamic_cast` produces null for plain primaries —
so expression slots are `Option Ast`. -/

/-- `Literal::Type`. -/
inductive LitType where
  | null | integer | floating | string | boolean
deriving DecidableEq, Repr

/-- `Binary_op::Op_type`. -/
inductive OpType where
  | EQ | NEQ | LT | GT | LTE | GTE | ADD | SUBTRACT | MULTIPLY | DIVIDE | MOD
  | AND | OR | LIKE | IN | COMMA
deriving DecidableEq, Repr

/-- `Join_type`. -/
inductive JoinType where
  | inner | left | right | full | cross
deriving DecidableEq, Repr

/-- `Window_spec::Frame::Type`. -/
inductive FrameType where
  | rows | range | groups
deriving DecidableEq, Repr

/-- `Window_spec::Frame::Bound::Type`. -/
inductive BoundType where
  | currentRow | unboundedPreceding | unboundedFollowing | preceding | following
deriving DecidableEq, Repr

/-- `Window_spec::Frame::Exclude`. -/
inductive FrameExclude where
  | noOthers | currentRow | group | ties
deriving DecidableEq, Repr

/-- `Column_ref`. -/
structure ColRef where
  tableName : Option String := none
  columnName : String := ""
  aliasName : Option String := none
deriving DecidableEq, Repr

/-- `Order_by_item` (its `m_column` is a concrete `Column_ref`). -/
structure OrderByItem where
  column : ColRef
  ascending : Bool := true
  nulls : Option String := none
deriving DecidableEq, Repr

mutual
/-- Expression nodes: `Literal`, `Column_ref`, `Binary_op`, `Function_call`. -/
inductive Ast where
  | literal (ltype : LitType) (value : String)
  | columnRef (c : ColRef)
  | binaryOp (op : OpType) (left : Option Ast) (right : Option Ast)
  | functionCall (name : String) (args : List (Option Ast)) (distinct : Bool)
      (star : Bool) (window : Option WindowSpec)
deriving Repr

/-- `Window_spec`. -/
inductive WindowSpec where
  | mk (referenceName : Option String) (partitionCols : Option (List ColRef))
      (order : List OrderByItem) (frame : Option Frame)
deriving Repr

/-- `Window_spec::Frame`. -/
inductive Frame where
  | mk (ftype : FrameType) (fstart : FrameBound) (fend : FrameBound)
      (exclude : Option FrameExclude)
deriving Repr

/-- `Window_spec::Frame::Bound`. -/
inductive FrameBound where
  | mk (btype : BoundType) (offset : Option Ast)
deriving Repr
end

/-! Decidable equality for the mutual expression family (the `deriving`
handler does not support mutual inductives, so the instances are spelled
out). -/

mutual

/-- Structural decidable equality on `Ast`. -/
def decEqAst : (a b : Ast) → Decidable (a = b)
  | Ast.literal t1 v1, Ast.literal t2 v2 =>
    match decEq t1 t2 with
    | isFalse h => isFalse (fun he => by injection he with h1 h2; exact h h1)
    | isTrue h1 =>
      match decEq v1 v2 with
      | isFalse h => isFalse (fun he => by injection he with _ h2; exact h h2)
      | isTrue h2 => isTrue (by rw [h1, h2])
  | Ast.columnRef c1, Ast.columnRef c2 =>
    match decEq c1 c2 with
    | isFalse h => isFalse (fun he => by injection he with h1; exact h h1)
    | isTrue h1 => isTrue (by rw [h1])
  | Ast.binaryOp o1 l1 r1, Ast.binaryOp o2 l2 r2 =>
    match decEq o1 o2 with
    | isFalse h => isFalse (fun he => by injection he with h1 _ _; exact h h1)
    | isTrue h1 =>
      match decEqOptAst l1 l2 with
      | isFalse h => isFalse (fun he => by injection he with _ h2 _; exact h h2)
      | isTrue h2 =>
        match decEqOptAst r1 r2 with
        | isFalse h => isFalse (fun he => by injection he with _ _ h3; exact h h3)
        | isTrue h3 => isTrue (by rw [h1, h2, h3])
  | Ast.functionCall n1 a1 d1 s1 w1, Ast.functionCall n2 a2 d2 s2 w2 =>
    match decEq n1 n2 with
    | isFalse h => isFalse (fun he => by injection he with h1 _ _ _ _; exact h h1)
    | isTrue h1 =>
      match decEqListOptAst a1 a2 with
      | isFalse h => isFalse (fun he => by injection he with _ h2 _ _ _; exact h h2)
      | isTrue h2 =>
        match decEq d1 d2 with
        | isFalse h => isFalse (fun he => by injection he with _ _ h3 _ _; exact h h3)
        | isTrue h3 =>
          match decEq s1 s2 with
          | isFalse h => isFalse (fun he => by injection he with _ _ _ h4 _; exact h h4)
          | isTrue h4 =>
            match decEqOptWindowSpec w1 w2 with
            | isFalse h => isFalse (fun he => by injection he with _ _ _ _ h5; exact h h5)
            | isTrue h5 => isTrue (by rw [h1, h2, h3, h4, h5])
  | Ast.literal _ _, Ast.columnRef _ => isFalse (fun he => by cases he)
  | Ast.literal _ _, Ast.binaryOp _ _ _ => isFalse (fun he => by cases he)
  | Ast.literal _ _, Ast.functionCall _ _ _ _ _ => isFalse (fun he => by cases he)
  | Ast.columnRef _, Ast.literal _ _ => isFalse (fun he => by cases he)
  | Ast.columnRef _, Ast.binaryOp _ _ _ => isFalse (fun he => by cases he)
  | Ast.columnRef _, Ast.functionCall _ _ _ _ _ => isFalse (fun he => by cases he)
  | Ast.binaryOp _ _ _, Ast.literal _ _ => isFalse (fun he => by cases he)
  | Ast.binaryOp _ _ _, Ast.columnRef _ => isFalse (fun he => by cases he)
  | Ast.binaryOp _ _ _, Ast.functionCall _ _ _ _ _ => isFalse (fun he => by cases he)
  | Ast.functionCall _ _ _ _ _, Ast.literal _ _ => isFalse (fun he => by cases he)
  | Ast.functionCall _ _ _ _ _, Ast.columnRef _ => isFalse (fun he => by cases he)
  | Ast.functionCall _ _ _ _ _, Ast.binaryOp _ _ _ => isFalse (fun he => by cases he)

/-- Structural decidable equality on `Option Ast`. -/
def decEqOptAst : (a b : Option Ast) → Decidable (a = b)
  | none, none => isTrue rfl
  | none, some _ => isFalse (fun he => by cases he)
  | some _, none => isFalse (fun he => by cases he)
  | some x, some y =>
    match decEqAst x y with
    | isFalse h => isFalse (fun he => by injection he with h1; exact h h1)
    | isTrue h1 => isTrue (by rw [h1])

/-- Structural decidable equality on `List (Option Ast)`. -/
def decEqListOptAst : (a b : List (Option Ast)) → Decidable (a = b)
  | [], [] => isTrue rfl
  | [], _ :: _ => isFalse (fun he => by cases he)
  | _ :: _, [] => isFalse (fun he => by cases he)
  | x :: xs, y :: ys =>
    match decEqOptAst x y with
    | isFalse h => isFalse (fun he => by injection he with h1 _; exact h h1)
    | isTrue h1 =>
      match decEqListOptAst xs ys with
      | isFalse h => isFalse (fun he => by injection he with _ h2; exact h h2)
      | isTrue h2 => isTrue (by rw [h1, h2])

/-- Structural decidable equality on `WindowSpec`. -/
def decEqWindowSpec : (a b : WindowSpec) → Decidable (a = b)
  | WindowSpec.mk r1 p1 o1 f1, WindowSpec.mk r2 p2 o2 f2 =>
    match decEq r1 r2 with
    | isFalse h => isFalse (fun he => by injection he with h1 _ _ _; exact h h1)
    | isTrue h1 =>
      match decEq p1 p2 with
      | isFalse h => isFalse (fun he => by injection he with _ h2 _ _; exact h h2)
      | isTrue h2 =>
        match decEq o1 o2 with
        | isFalse h => isFalse (fun he => by injection he with _ _ h3 _; exact h h3)
        | isTrue h3 =>
          match decEqOptFrame f1 f2 with
          | isFalse h => isFalse (fun he => by injection he with _ _ _ h4; exact h h4)
          | isTrue h4 => isTrue (by rw [h1, h2, h3, h4])

/-- Structural decidable equality on `Option WindowSpec`. -/
def decEqOptWindowSpec : (a b : Option WindowSpec) → Decidable (a = b)
  | none, none => isTrue rfl
  | none, some _ => isFalse (fun he => by cases he)
  | some _, none => isFalse (fun he => by cases he)
  | some x, some y =>
    match decEqWindowSpec x y with
    | isFalse h => isFalse (fun he => by injection he with h1; exact h h1)
    | isTrue h1 => isTrue (by rw [h1])

/-- Structural decidable equality on `Frame`. -/
def decEqFrame : (a b : Frame) → Decidable (a = b)
  | Frame.mk t1 s1 e1 x1, Frame.mk t2 s2 e2 x2 =>
    match decEq t1 t2 with
    | isFalse h => isFalse (fun he => by injection he with h1 _ _ _; exact h h1)
    | isTrue h1 =>
      match decEqFrameBound s1 s2 with
      | isFalse h => isFalse (fun he => by injection he with _ h2 _ _; exact h h2)
      | isTrue h2 =>
        match decEqFrameBound e1 e2 with
        | isFalse h => isFalse (fun he => by injection he with _ _ h3 _; exact h h3)
        | isTrue h3 =>
          match decEq x1 x2 with
          | isFalse h => isFalse (fun he => by injection he with _ _ _ h4; exact h h4)
          | isTrue h4 => isTrue (by rw [h1, h2, h3, h4])

/-- Structural decidable equality on `Option Frame`. -/
def decEqOptFrame : (a b : Option Frame) → Decidable (a = b)
  | none, none => isTrue rfl
  | none, some _ => isFalse (fun he => by cases he)
  | some _, none => isFalse (fun he => by cases he)
  | some x, some y =>
    match decEqFrame x y with
    | isFalse h => isFalse (fun he => by injection he with h1; exact h h1)
    | isTrue h1 => isTrue (by rw [h1])

/-- Structural decidable equality on `FrameBound`. -/
def decEqFrameBound : (a b : FrameBound) → Decidable (a = b)
  | FrameBound.mk t1 o1, FrameBound.mk t2 o2 =>
    match decEq t1 t2 with
    | isFalse h => isFalse (fun he => by injection he with h1 _; exact h h1)
    | isTrue h1 =>
      match decEqOptAst o1 o2 with
      | isFalse h => isFalse (fun he => by injection he with _ h2; exact h h2)
      | isTrue h2 => isTrue (by rw [h1, h2])

end

instance : DecidableEq Ast := decEqAst

instance : DecidableEq WindowSpec := decEqWindowSpec

instance : DecidableEq Frame := decEqFrame

instance : DecidableEq FrameBound := decEqFrameBound

/-- `Table_ref` as `parser.cc` uses it: schema, table name, alias (the
printer for it is `Base_table_ref::to_string`). -/
structure TableRef where
  schemaName : Option String := none
  tableName : String := ""
  aliasName : Option String := none
deriving DecidableEq, Repr

/-- `Join` (constructed by `parse_table_references` before it throws).  The
condition variant holds the ON expression alternative; the USING alternative
is never constructed by this parser. -/
structure Join where
  jtype : JoinType
  left : TableRef
  right : TableRef
  natural : Bool := false
  condition : Option Ast := none
deriving Repr, DecidableEq

/-- `Where_clause` (`m_condition` may be null). -/
structure WhereClause where
  condition : Option Ast
deriving Repr, DecidableEq

/-- `Group_by`. -/
structure GroupBy where
  columns : List ColRef := []
  having : Option Ast := none
deriving Repr, DecidableEq

/-- `Select_stmt` (fields the parser fills). -/
structure SelectStmt where
  distinct : Bool := false
  columns : List (Option Ast) := []
  fromTables : List TableRef := []
  whereClause : Option WhereClause := none
  groupBy : Option GroupBy := none
  orderBy : List OrderByItem := []
  limit : Option Nat := none
deriving Repr, DecidableEq

/-- `Update_stmt::Assignment`. -/
structure Assignment where
  column : String
  value : Option Ast
deriving Repr, DecidableEq

/-- `Update_stmt`. -/
structure UpdateStmt where
  table : TableRef
  assignments : List Assignment := []
  whereClause : Option WhereClause := none
  orderBy : List OrderByItem := []
  limit : Option Nat := none
deriving Repr, DecidableEq

/-- `Delete_stmt`. -/
structure DeleteStmt where
  table : TableRef
  usingTables : Option (List TableRef) := none
  whereClause : Option WhereClause := none
  orderBy : List OrderByItem := []
  limit : Option Nat := none
deriving Repr, DecidableEq

/-- The `m_values` variant of `Insert_stmt`. -/
inductive InsertValues where
  | valueLists (rows : List (List (Option Ast)))
  | selectValues (s : SelectStmt)
deriving Repr, DecidableEq

/-- `Insert_stmt`. -/
structure InsertStmt where
  tableName : String := ""
  columns : List String := []
  values : InsertValues := InsertValues.valueLists []
  onDuplicate : Option (List Assignment) := none
deriving Repr, DecidableEq

/-- `Data_type::Type`. -/
inductive DTBase where
  | integer | bigint | smallint | decimal | numeric | floatT | doubleT
  | charT | varchar | text | date | time | timestamp | boolean | blob | json
deriving DecidableEq, Repr

/-- `Data_type`.  `base` is `none` while `m_base_type` is still
uninitialized (the source declares `Data_type type;` and only some branches
assign the base type). -/
structure DataType where
  base : Option DTBase := none
  length : Option Nat := none
  precision : Option Nat := none
  scale : Option Nat := none
  charset : Option String := none
  collation : Option String := none
deriving DecidableEq, Repr

/-- `Foreign_key_reference::Match_type`. -/
inductive FKMatch where
  | simple | full | partialM
deriving DecidableEq, Repr

/-- `Foreign_key_reference::Action`. -/
inductive FKAction where
  | noAction | restrictA | cascade | setNull | setDefault
deriving DecidableEq, Repr

/-- `Foreign_key_reference`. -/
structure FKRef where
  tableName : String := ""
  columnNames : List String := []
  matchType : Option FKMatch := none
  onDelete : Option FKAction := none
  onUpdate : Option FKAction := none
  enforced : Option Bool := none
deriving DecidableEq, Repr

/-- `Column_def` (fields `parse_column_definition` fills). -/
structure ColumnDef where
  name : String := ""
  dtype : DataType := {}
  nullable : Bool := true
  primaryKey : Bool := false
  uniqueFlag : Bool := false
  autoIncrement : Bool := false
  defaultValue : Option Ast := none
  check : Option Ast := none
  references : Option FKRef := none
  comment : Option String := none
deriving Repr, DecidableEq

/-- `Table_constraint::Type`. -/
inductive TCType where
  | primaryKey | foreignKey | uniqueT | check
deriving DecidableEq, Repr

/-- `Table_constraint` (fields `parse_table_constraint` fills). -/
structure TableConstraint where
  name : Option String := none
  ctype : TCType := TCType.primaryKey
  columns : List String := []
  reference : Option FKRef := none
  check : Option Ast := none
deriving Repr, DecidableEq

/-- `Create_table_def::Options` (fields `parse_table_options` fills). -/
structure TableOptions where
  engine : Option String := none
  charset : Option String := none
  collate : Option String := none
  autoIncrement : Option Nat := none
  comment : Option String := none
  maxRows : Option Nat := none
  minRows : Option Nat := none
  rowFormat : Option String := none
  keyBlockSize : Option Nat := none
  tablespace : Option String := none
deriving DecidableEq, Repr

/-- `Create_table_def`. -/
structure CreateTableDef where
  tableName : String := ""
  columns : List ColumnDef := []
  constraints : List TableConstraint := []
  options : TableOptions := {}
deriving Repr, DecidableEq

/-- `Index_column` (fields `parse_create_index` fills). -/
structure IndexColumn where
  columnName : Option String := none
  expression : Option Ast := none
  length : Option Nat := none
  ascending : Bool := true
deriving Repr, DecidableEq

/-- `Create_index_def` (fields `parse_create_index` fills). -/
structure CreateIndexDef where
  indexName : String := ""
  tableName : String := ""
  columns : List IndexColumn := []
  uniqueFlag : Bool := false
  indexType : Option String := none
deriving Repr, DecidableEq

/-- `Create_view_def` (fields `parse_create_view` fills). -/
structure CreateViewDef where
  viewName : String := ""
  columnNames : List String := []
  select : SelectStmt := {}
  withCheckOption : Bool := false
  orReplace : Bool := false
deriving Repr, DecidableEq

/-- `Create_stmt::Object_type` (the three cases the parser produces). -/
inductive CreateObjType where
  | table | index | view
deriving DecidableEq, Repr

/-- The `m_definition` variant of `Create_stmt`. -/
inductive CreateDef where
  | tableDef (d : CreateTableDef)
  | indexDef (d : CreateIndexDef)
  | viewDef (d : CreateViewDef)
deriving Repr, DecidableEq

/-- `Create_stmt`. -/
structure CreateStmt where
  objectType : CreateObjType := CreateObjType.table
  ifNotExists : Bool := false
  definition : CreateDef := CreateDef.tableDef {}
deriving Repr, DecidableEq

/-- `Drop_stmt::Object_type` cases reachable in `parse_drop_statement`. -/
inductive DropObjType where
  | table | index | view | trigger
deriving DecidableEq, Repr

/-- `Drop_stmt`. -/
structure DropStmt where
  cascade : Bool := false
  ifExists : Bool := false
  objectType : DropObjType := DropObjType.table
  objectNames : List String := []
deriving DecidableEq, Repr

/-- The `Ast_node` variant as far as `parse_statement` can actually return
it (the ALTER branch always throws before producing a node). -/
inductive AstNode where
  | selectNode (s : SelectStmt)
  | insertNode (i : InsertStmt)
  | updateNode (u : UpdateStmt)
  | deleteNode (d : DeleteStmt)
  | createNode (c : CreateStmt)
  | dropNode (d : DropStmt)
deriving Repr, DecidableEq

/-! ## Grammar routines (`parser.cc`)

The parser's unbounded loops and (mutual) recursion are driven by an explicit
`fuel` argument; every claim is evaluated with ample fuel and no theorem
depends on the fuel-exhaustion error. -/

/-- Error reported on fuel exhaustion only; distinct from every diagnostic of
the source. -/
def fuelErr {α : Type} : Except String α := Except.error "out of fuel"

/-- `Parser::parse_operator`.  The source compares the current lexeme's value
only after requiring `Lexeme_type::OPERATOR`; it has cases for the textual
operators `AND`, `OR`, `LIKE`, `IN`, but no case at all for `-` (SUBTRACT) or
`,` (COMMA). -/
def Parser.parseOperator (p : Parser) : Option OpType :=
  let l := p.cur
  if l.type ≠ LexemeType.OPERATOR then none
  else if l.value = "=" then some OpType.EQ
  else if l.value = "<>" then some OpType.NEQ
  else if l.value = "<" then some OpType.LT
  else if l.value = ">" then some OpType.GT
  else if l.value = "<=" then some OpType.LTE
  else if l.value = ">=" then some OpType.GTE
  else if l.value = "+" then some OpType.ADD
  else if l.value = "*" then some OpType.MULTIPLY
  else if l.value = "/" then some OpType.DIVIDE
  else if l.value = "%" then some OpType.MOD
  else if l.value = "AND" then some OpType.AND
  else if l.value = "OR" then some OpType.OR
  else if l.value = "LIKE" then some OpType.LIKE
  else if l.value = "IN" then some OpType.IN
  else none

/-- `Parser::parse_literal`. -/
def Parser.parseLiteral (p : Parser) : Except String (Ast × Parser) :=
  let l := p.cur
  match l.type with
  | LexemeType.NUMBER => do
    let t := if l.value.contains '.' then LitType.floating else LitType.integer
    let p1 ← p.advance
    pure (Ast.literal t l.value, p1)
  | LexemeType.STRING_LITERAL => do
    let p1 ← p.advance
    pure (Ast.literal LitType.string l.value, p1)
  | LexemeType.KEYWORD =>
    if l.value = "NULL" then do
      let p1 ← p.advance
      pure (Ast.literal LitType.null "NULL", p1)
    else if l.value = "TRUE" ∨ l.value = "FALSE" then do
      let p1 ← p.advance
      pure (Ast.literal LitType.boolean l.value, p1)
    else
      Except.error "Unexpected keyword in literal context"
  | _ => Except.error "Expected literal value"

/-- `Parser::parse_column_ref`. -/
def Parser.parseColumnRef (p : Parser) : Except String (ColRef × Parser) := do
  let name := p.cur.value
  let p1 ← p.advance
  let (dot, p2) ← p1.matchTV LexemeType.OPERATOR "."
  if dot then do
    let p3 ← p2.expectType LexemeType.IDENTIFIER
    pure ({ tableName := some name, columnName := p3.prevLexeme.value }, p3)
  else
    pure ({ tableName := none, columnName := name }, p2)

/-- `Parser::parse_limit`. -/
def Parser.parseLimit (p : Parser) : Except String (Option Nat × Parser) :=
  if p.cur.type ≠ LexemeType.NUMBER then
    Except.error "Expected number after LIMIT"
  else do
    let n := stoullNat p.cur.value
    let p1 ← p.advance
    pure (some n, p1)

/-- `Parser::parse_table_reference`.  The schema test evaluates
`peek().m_type` and then, on success, `peek().m_value` — two separate `peek`
calls with C++ short-circuiting, reproduced here. -/
def Parser.parseTableReference (p0 : Parser) : Except String (TableRef × Parser) := do
  let (schema, p1) ←
    if p0.cur.type = LexemeType.IDENTIFIER then do
      let (l1, pa) ← p0.peek1
      if l1.type = LexemeType.OPERATOR then do
        let (l2, pb) ← pa.peek1
        if l2.value = "." then do
          let pc ← pb.advance
          let pd ← pc.advance
          pure ((some p0.cur.value : Option String), pd)
        else
          pure (none, pb)
      else
        pure (none, pa)
    else
      pure (none, p0)
  if p1.cur.type ≠ LexemeType.IDENTIFIER then
    Except.error "Expected table name"
  else do
    let tname := p1.cur.value
    let p2 ← p1.advance
    let (asKw, p3) ← p2.matchTV LexemeType.KEYWORD "AS"
    if asKw then
      if p3.cur.type ≠ LexemeType.IDENTIFIER then
        Except.error "Expected identifier after AS"
      else do
        let a := p3.cur.value
        let p4 ← p3.advance
        pure ({ schemaName := schema, tableName := tname, aliasName := some a }, p4)
    else if p3.cur.type = LexemeType.IDENTIFIER then do
      let a := p3.cur.value
      let p4 ← p3.advance
      pure ({ schemaName := schema, tableName := tname, aliasName := some a }, p4)
    else
      pure ({ schemaName := schema, tableName := tname, aliasName := none }, p3)

/-- `Parser::parse_reference_option`. -/
def Parser.parseReferenceOption (p : Parser) : Except String (FKAction × Parser) := do
  let (b1, p1) ← p.matchTV LexemeType.KEYWORD "RESTRICT"
  if b1 then pure (FKAction.restrictA, p1)
  else do
    let (b2, p2) ← p1.matchTV LexemeType.KEYWORD "CASCADE"
    if b2 then pure (FKAction.cascade, p2)
    else do
      let (b3, p3) ← p2.matchTV LexemeType.KEYWORD "SET"
      if b3 then do
        let (bn, p4) ← p3.matchTV LexemeType.KEYWORD "NULL"
        if bn then pure (FKAction.setNull, p4)
        else do
          let (bd, p5) ← p4.matchTV LexemeType.KEYWORD "DEFAULT"
          if bd then pure (FKAction.setDefault, p5)
          else Except.error "Expected NULL or DEFAULT after SET"
      else do
        let (b4, p4) ← p3.matchTV LexemeType.KEYWORD "NO"
        if b4 then do
          let (ba, p5) ← p4.matchTV LexemeType.KEYWORD "ACTION"
          if ba then pure (FKAction.noAction, p5)
          else Except.error "Expected ACTION after NO"
        else
          Except.error "Expected RESTRICT, CASCADE, SET NULL, SET DEFAULT, or NO ACTION"

/-- `Parser::parse_order_by` (the do-while loop over order-by items). -/
def Parser.parseOrderBy (fuel : Nat) (p : Parser) : Except String (List OrderByItem × Parser) :=
  match fuel with
  | 0 => fuelErr
  | fuel + 1 => do
    let (col, p1) ← p.parseColumnRef
    let (isDesc, p2) ← p1.matchTV LexemeType.KEYWORD "DESC"
    let (asc, p3) ←
      if isDesc then pure (false, p2)
      else do
        let (_, q) ← p2.matchTV LexemeType.KEYWORD "ASC"
        pure (true, q)
    let (hasNulls, p4) ← p3.matchTV LexemeType.KEYWORD "NULLS"
    let (nulls, p5) ←
      if hasNulls then do
        let (bf, q1) ← p4.matchTV LexemeType.KEYWORD "FIRST"
        if bf then pure ((some "FIRST" : Option String), q1)
        else do
          let (bl, q2) ← q1.matchTV LexemeType.KEYWORD "LAST"
          if bl then pure (some "LAST", q2)
          else Except.error "Expected FIRST or LAST after NULLS"
      else pure (none, p4)
    let item : OrderByItem := { column := col, ascending := asc, nulls := nulls }
    let (comma, p6) ← p5.matchTV LexemeType.OPERATOR ","
    if comma then do
      let (items, p7) ← Parser.parseOrderBy fuel p6
      pure (item :: items, p7)
    else
      pure ([item], p6)

/-- `Parser::parse_group_by` (the do-while loop over column references). -/
def Parser.parseGroupBy (fuel : Nat) (p : Parser) : Except String (GroupBy × Parser) :=
  match fuel with
  | 0 => fuelErr
  | fuel + 1 => do
    let (col, p1) ← p.parseColumnRef
    let (comma, p2) ← p1.matchTV LexemeType.OPERATOR ","
    if comma then do
      let (g, p3) ← Parser.parseGroupBy fuel p2
      pure ({ g with columns := col :: g.columns }, p3)
    else
      pure ({ columns := [col], having := none }, p2)

/-- `Parser::parse_partition_by` (the do-while loop over column references). -/
def Parser.parsePartitionBy (fuel : Nat) (p : Parser) : Except String (List ColRef × Parser) :=
  match fuel with
  | 0 => fuelErr
  | fuel + 1 => do
    let (col, p1) ← p.parseColumnRef
    let (comma, p2) ← p1.matchTV LexemeType.OPERATOR ","
    if comma then do
      let (cols, p3) ← Parser.parsePartitionBy fuel p2
      pure (col :: cols, p3)
    else
      pure ([col], p2)

/-- The `while (match(Lexeme_type::WHITESPACE)) {}` loops of
`parse_column_list_in_parentheses` (the lexer never emits WHITESPACE lexemes,
so these loops terminate immediately at run time). -/
def Parser.matchWsLoop (fuel : Nat) (p : Parser) : Except String Parser :=
  match fuel with
  | 0 => fuelErr
  | fuel + 1 => do
    let (b, p1) ← p.matchType LexemeType.WHITESPACE
    if b then Parser.matchWsLoop fuel p1 else pure p1

/-- The inner `while (cur != ")") advance();` scan of
`parse_column_list_in_parentheses` that skips a column length
specification. -/
def Parser.skipToCloseParen (fuel : Nat) (p : Parser) : Except String Parser :=
  match fuel with
  | 0 => fuelErr
  | fuel + 1 =>
    if p.cur.type ≠ LexemeType.OPERATOR ∨ p.cur.value ≠ ")" then do
      let p1 ← p.advance
      Parser.skipToCloseParen fuel p1
    else
      pure p

/-- The do-while body of `Parser::parse_column_list_in_parentheses`. -/
def Parser.parseColumnListInParensLoop (fuel : Nat) (p : Parser) :
    Except String (List String × Parser) :=
  match fuel with
  | 0 => fuelErr
  | fuel + 1 => do
    let p1 ← p.matchWsLoop fuel
    if p1.cur.type ≠ LexemeType.IDENTIFIER then
      Except.error "Expected column name at line"
    else do
      let name := p1.cur.value
      let p2 ← p1.advance
      let (lenParen, p3) ← p2.matchTV LexemeType.OPERATOR "("
      let p4 ←
        if lenParen then do
          let q1 ← p3.skipToCloseParen fuel
          let (closed, q2) ← q1.matchTV LexemeType.OPERATOR ")"
          if closed then pure q2
          else Except.error "Expected closing parenthesis after column length at line"
        else pure p3
      let p5 ← p4.matchWsLoop fuel
      let (comma, p6) ← p5.matchTV LexemeType.OPERATOR ","
      if comma then do
        let (names, p7) ← Parser.parseColumnListInParensLoop fuel p6
        pure (name :: names, p7)
      else
        pure ([name], p6)

/-- `Parser::parse_column_list_in_parentheses`. -/
def Parser.parseColumnListInParentheses (fuel : Nat) (p : Parser) :
    Except String (List String × Parser) :=
  match fuel with
  | 0 => fuelErr
  | fuel + 1 => do
    let (opened, p1) ← p.matchTV LexemeType.OPERATOR "("
    if ¬ opened then
      Except.error "Expected opening parenthesis before column list at line"
    else do
      let (names, p2) ← Parser.parseColumnListInParensLoop fuel p1
      let (closed, p3) ← p2.matchTV LexemeType.OPERATOR ")"
      if closed then pure (names, p3)
      else Except.error "Expected closing parenthesis after column list at line"

/-- The `for (;;)` charset/collation loop at the end of the CHAR/VARCHAR
branch of `Parser::parse_data_type`.  The CHARACTER branch only consumes
`SET` and reads no name, as in the source. -/
def Parser.dataTypeCharsetLoop (fuel : Nat) (dt : DataType) (p : Parser) :
    Except String (DataType × Parser) :=
  match fuel with
  | 0 => fuelErr
  | fuel + 1 => do
    let (bCharacter, p1) ← p.matchTV LexemeType.KEYWORD "CHARACTER"
    if bCharacter then do
      let (bSet, p2) ← p1.matchTV LexemeType.KEYWORD "SET"
      if bSet then Parser.dataTypeCharsetLoop fuel dt p2
      else Except.error "Expected SET after CHARACTER"
    else do
      let (bCharset, p2) ← p1.matchTV LexemeType.KEYWORD "CHARSET"
      if bCharset then
        if p2.cur.type ≠ LexemeType.IDENTIFIER then
          Except.error "Expected character set name"
        else do
          let v := p2.cur.value
          let p3 ← p2.advance
          Parser.dataTypeCharsetLoop fuel { dt with charset := some v } p3
      else do
        let (bCollate, p3) ← p2.matchTV LexemeType.KEYWORD "COLLATE"
        if bCollate then
          if p3.cur.type ≠ LexemeType.IDENTIFIER then
            Except.error "Expected collation name"
          else do
            let v := p3.cur.value
            let p4 ← p3.advance
            Parser.dataTypeCharsetLoop fuel { dt with collation := some v } p4
        else
          pure (dt, p3)

/-- `Parser::parse_data_type`, including the source's quirks: the chain for
`TEXT`, `DATE`, `TIME`, `TIMESTAMP`, `BOOLEAN`/`BOOL`, `BLOB` and `JSON` is
nested inside the CHAR/VARCHAR branch (hence dead), a plain `CHAR` with no
length falls into it and fails with "Unknown data type", and a type name
matching no branch leaves `m_base_type` uninitialized (`base := none`). -/
def Parser.parseDataType (fuel : Nat) (p : Parser) : Except String (DataType × Parser) :=
  match fuel with
  | 0 => fuelErr
  | fuel + 1 =>
    if p.cur.type ≠ LexemeType.IDENTIFIER then
      Except.error "Expected data type name"
    else do
      let typeName := asciiUpper p.cur.value
      let p1 ← p.advance
      if typeName = "INT" ∨ typeName = "INTEGER" then
        pure ({ base := some DTBase.integer }, p1)
      else if typeName = "BIGINT" then
        pure ({ base := some DTBase.bigint }, p1)
      else if typeName = "SMALLINT" then
        pure ({ base := some DTBase.smallint }, p1)
      else if typeName = "DECIMAL" ∨ typeName = "NUMERIC" then do
        let base := if typeName = "DECIMAL" then DTBase.decimal else DTBase.numeric
        let (paren, p2) ← p1.matchTV LexemeType.OPERATOR "("
        if paren then
          if p2.cur.type ≠ LexemeType.NUMBER then
            Except.error "Expected precision value"
          else do
            let prec := stoullNat p2.cur.value
            let p3 ← p2.advance
            let (comma, p4) ← p3.matchTV LexemeType.OPERATOR ","
            let (scaleV, p5) ←
              if comma then
                if p4.cur.type ≠ LexemeType.NUMBER then
                  Except.error "Expected scale value"
                else do
                  let s := stoullNat p4.cur.value
                  let q ← p4.advance
                  pure ((some s : Option Nat), q)
              else pure (none, p4)
            let (closed, p6) ← p5.matchTV LexemeType.OPERATOR ")"
            if closed then
              pure ({ base := some base, precision := some prec, scale := scaleV }, p6)
            else
              Except.error "Expected closing parenthesis"
        else
          pure ({ base := some base }, p2)
      else if typeName = "FLOAT" then
        pure ({ base := some DTBase.floatT }, p1)
      else if typeName = "DOUBLE" then
        -- the source's second disjunct `type_name == "DOUBLE" && match(PRECISION)`
        -- is never evaluated because of short-circuiting
        pure ({ base := some DTBase.doubleT }, p1)
      else if typeName = "CHAR" ∨ typeName = "VARCHAR" then do
        let base := if typeName = "CHAR" then DTBase.charT else DTBase.varchar
        let (paren, p2) ← p1.matchTV LexemeType.OPERATOR "("
        let (dt, p3) ←
          if paren then
            if p2.cur.type ≠ LexemeType.NUMBER then
              Except.error "Expected length value"
            else do
              let len := stoullNat p2.cur.value
              let q1 ← p2.advance
              let (closed, q2) ← q1.matchTV LexemeType.OPERATOR ")"
              if closed then
                pure (({ base := some base, length := some len } : DataType), q2)
              else
                Except.error "Expected closing parenthesis"
          else if base = DTBase.varchar then
            Except.error "VARCHAR requires length specification"
          else if typeName = "TEXT" then
            pure ({ base := some DTBase.text }, p2)
          else if typeName = "DATE" then
            pure ({ base := some DTBase.date }, p2)
          else if typeName = "TIME" then
            pure ({ base := some DTBase.time }, p2)
          else if typeName = "TIMESTAMP" then
            pure ({ base := some DTBase.timestamp }, p2)
          else if typeName = "BOOLEAN" ∨ typeName = "BOOL" then
            pure ({ base := some DTBase.boolean }, p2)
          else if typeName = "BLOB" then
            pure ({ base := some DTBase.blob }, p2)
          else if typeName = "JSON" then
            pure ({ base := some DTBase.json }, p2)
          else
            Except.error ("Unknown data type: " ++ typeName)
        Parser.dataTypeCharsetLoop fuel dt p3
      else
        pure ({ base := none }, p1)

/-- The do-while column-name loop of `Parser::parse_foreign_key_reference`. -/
def Parser.fkColumnsLoop (fuel : Nat) (p : Parser) : Except String (List String × Parser) :=
  match fuel with
  | 0 => fuelErr
  | fuel + 1 =>
    if p.cur.type ≠ LexemeType.IDENTIFIER then
      Except.error "Expected column name at line"
    else do
      let name := p.cur.value
      let p1 ← p.advance
      let (comma, p2) ← p1.matchTV LexemeType.OPERATOR ","
      if comma then do
        let (names, p3) ← Parser.fkColumnsLoop fuel p2
        pure (name :: names, p3)
      else
        pure ([name], p2)

/-- `Parser::parse_foreign_key_reference`. -/
def Parser.parseForeignKeyReference (fuel : Nat) (p : Parser) :
    Except String (FKRef × Parser) :=
  match fuel with
  | 0 => fuelErr
  | fuel + 1 => do
    let p1 ←
      if p.prevLexeme.value ≠ "" ∧ asciiUpper p.prevLexeme.value ≠ "REFERENCES" then do
        let (b, q) ← p.matchTV LexemeType.KEYWORD "REFERENCES"
        if b then pure q else Except.error "Expected REFERENCES keyword"
      else pure p
    if p1.cur.type ≠ LexemeType.IDENTIFIER then
      Except.error "Expected table name at line"
    else do
      let tname := p1.cur.value
      let p2 ← p1.advance
      let (paren, p3) ← p2.matchTV LexemeType.OPERATOR "("
      let (cols, p4) ←
        if paren then do
          let (names, q1) ← Parser.fkColumnsLoop fuel p3
          let (closed, q2) ← q1.matchTV LexemeType.OPERATOR ")"
          if closed then pure (names, q2)
          else Except.error "Expected closing parenthesis after column list"
        else pure ([], p3)
      let (bMatch, p5) ← p4.matchTV LexemeType.KEYWORD "MATCH"
      let (matchV, p6) ←
        if bMatch then do
          let (bf, q1) ← p5.matchTV LexemeType.KEYWORD "FULL"
          if bf then pure ((some FKMatch.full : Option FKMatch), q1)
          else do
            let (bp, q2) ← q1.matchTV LexemeType.KEYWORD "PARTIAL"
            if bp then pure (some FKMatch.partialM, q2)
            else do
              let (bs, q3) ← q2.matchTV LexemeType.KEYWORD "SIMPLE"
              if bs then pure (some FKMatch.simple, q3)
              else Except.error "Expected FULL, PARTIAL or SIMPLE after MATCH at line"
        else pure (none, p5)
      let (bOn1, p7) ← p6.matchTV LexemeType.KEYWORD "ON"
      let (onDel, p8) ←
        if bOn1 then do
          let (bDel, q1) ← p7.matchTV LexemeType.KEYWORD "DELETE"
          if bDel then do
            let (a, q2) ← q1.parseReferenceOption
            pure ((some a : Option FKAction), q2)
          else do
            let q2 ← q1.backup
            pure (none, q2)
        else pure (none, p7)
      let (bOn2, p9) ← p8.matchTV LexemeType.KEYWORD "ON"
      let (onUpd, p10) ←
        if bOn2 then do
          let (bUpd, q1) ← p9.matchTV LexemeType.KEYWORD "UPDATE"
          if bUpd then do
            let (a, q2) ← q1.parseReferenceOption
            pure ((some a : Option FKAction), q2)
          else Except.error "Expected UPDATE after ON at line"
        else pure (none, p9)
      let (bEnf, p11) ← p10.matchTV LexemeType.KEYWORD "ENFORCED"
      if bEnf then
        pure ({ tableName := tname, columnNames := cols, matchType := matchV,
                onDelete := onDel, onUpdate := onUpd, enforced := some true }, p11)
      else do
        let (bNot, p12) ← p11.matchTV LexemeType.KEYWORD "NOT"
        if bNot then do
          let (bEnf2, p13) ← p12.matchTV LexemeType.KEYWORD "ENFORCED"
          if bEnf2 then
            pure ({ tableName := tname, columnNames := cols, matchType := matchV,
                    onDelete := onDel, onUpdate := onUpd, enforced := some false }, p13)
          else Except.error "Expected ENFORCED after NOT at line"
        else
          pure ({ tableName := tname, columnNames := cols, matchType := matchV,
                  onDelete := onDel, onUpdate := onUpd, enforced := none }, p12)

/-- The `= or preceding whitespace` test shared by every branch of
`Parser::parse_table_options`: `!match(OPERATOR, "=") &&
!is_whitespace_before(current)` throws. -/
def Parser.tableOptionEq (errMsg : String) (p : Parser) : Except String Parser := do
  let (beq, p1) ← p.matchTV LexemeType.OPERATOR "="
  if ¬ beq ∧ ¬ (p1.isWhitespaceBefore p1.cur) then
    Except.error errMsg
  else
    pure p1

/-- `Parser::parse_table_options` (the `for (;;)` loop over MySQL-style
options; a trailing comma between options is consumed silently). -/
def Parser.parseTableOptions (fuel : Nat) (opts : TableOptions) (p : Parser) :
    Except String (TableOptions × Parser) :=
  match fuel with
  | 0 => fuelErr
  | fuel + 1 => do
    let step : Except String (Option (TableOptions × Parser)) := do
      let (bEngine, p1) ← p.matchTV LexemeType.KEYWORD "ENGINE"
      if bEngine then do
        let p2 ← p1.tableOptionEq "Expected = after ENGINE"
        if p2.cur.type ≠ LexemeType.IDENTIFIER then Except.error "Expected engine name"
        else do
          let v := p2.cur.value
          let p3 ← p2.advance
          pure (some ({ opts with engine := some v }, p3))
      else do
      let (bAuto, p1) ← p1.matchTV LexemeType.KEYWORD "AUTO_INCREMENT"
      if bAuto then do
        let p2 ← p1.tableOptionEq "Expected = after AUTO_INCREMENT"
        if p2.cur.type ≠ LexemeType.NUMBER then Except.error "Expected number for AUTO_INCREMENT"
        else do
          let v := stoullNat p2.cur.value
          let p3 ← p2.advance
          pure (some ({ opts with autoIncrement := some v }, p3))
      else do
      let (bCharacter, p1) ← p1.matchTV LexemeType.KEYWORD "CHARACTER"
      if bCharacter then do
        let (bSet, p2) ← p1.matchTV LexemeType.KEYWORD "SET"
        if ¬ bSet then Except.error "Expected SET after CHARACTER"
        else do
          let p3 ← p2.tableOptionEq "Expected = after CHARACTER SET"
          if p3.cur.type ≠ LexemeType.IDENTIFIER then Except.error "Expected character set name"
          else do
            let v := p3.cur.value
            let p4 ← p3.advance
            pure (some ({ opts with charset := some v }, p4))
      else do
      let (bCharset, p1) ← p1.matchTV LexemeType.KEYWORD "CHARSET"
      if bCharset then do
        let p2 ← p1.tableOptionEq "Expected = after CHARSET"
        if p2.cur.type ≠ LexemeType.IDENTIFIER then Except.error "Expected character set name"
        else do
          let v := p2.cur.value
          let p3 ← p2.advance
          pure (some ({ opts with charset := some v }, p3))
      else do
      let (bCollate, p1) ← p1.matchTV LexemeType.KEYWORD "COLLATE"
      if bCollate then do
        let p2 ← p1.tableOptionEq "Expected = after COLLATE"
        if p2.cur.type ≠ LexemeType.IDENTIFIER then Except.error "Expected collation name"
        else do
          let v := p2.cur.value
          let p3 ← p2.advance
          pure (some ({ opts with collate := some v }, p3))
      else do
      let (bComment, p1) ← p1.matchTV LexemeType.KEYWORD "COMMENT"
      if bComment then do
        let p2 ← p1.tableOptionEq "Expected = after COMMENT"
        if p2.cur.type ≠ LexemeType.STRING_LITERAL then Except.error "Expected string literal for COMMENT"
        else do
          let v := p2.cur.value
          let p3 ← p2.advance
          pure (some ({ opts with comment := some v }, p3))
      else do
      let (bRowFormat, p1) ← p1.matchTV LexemeType.KEYWORD "ROW_FORMAT"
      if bRowFormat then do
        let p2 ← p1.tableOptionEq "Expected = after ROW_FORMAT"
        if p2.cur.type ≠ LexemeType.IDENTIFIER then Except.error "Expected ROW_FORMAT value"
        else do
          let v := p2.cur.value
          let p3 ← p2.advance
          pure (some ({ opts with rowFormat := some v }, p3))
      else do
      let (bKbs, p1) ← p1.matchTV LexemeType.KEYWORD "KEY_BLOCK_SIZE"
      if bKbs then do
        let p2 ← p1.tableOptionEq "Expected = after KEY_BLOCK_SIZE"
        if p2.cur.type ≠ LexemeType.NUMBER then Except.error "Expected number for KEY_BLOCK_SIZE"
        else do
          let v := stoullNat p2.cur.value
          let p3 ← p2.advance
          pure (some ({ opts with keyBlockSize := some v }, p3))
      else do
      let (bMax, p1) ← p1.matchTV LexemeType.KEYWORD "MAX_ROWS"
      if bMax then do
        let p2 ← p1.tableOptionEq "Expected = after MAX_ROWS"
        if p2.cur.type ≠ LexemeType.NUMBER then Except.error "Expected number for MAX_ROWS"
        else do
          let v := stoullNat p2.cur.value
          let p3 ← p2.advance
          pure (some ({ opts with maxRows := some v }, p3))
      else do
      let (bMin, p1) ← p1.matchTV LexemeType.KEYWORD "MIN_ROWS"
      if bMin then do
        let p2 ← p1.tableOptionEq "Expected = after MIN_ROWS"
        if p2.cur.type ≠ LexemeType.NUMBER then Except.error "Expected number for MIN_ROWS"
        else do
          let v := stoullNat p2.cur.value
          let p3 ← p2.advance
          pure (some ({ opts with minRows := some v }, p3))
      else do
      let (bTs, p1) ← p1.matchTV LexemeType.KEYWORD "TABLESPACE"
      if bTs then do
        let p2 ← p1.tableOptionEq "Expected = after TABLESPACE"
        if p2.cur.type ≠ LexemeType.IDENTIFIER then Except.error "Expected tablespace name"
        else do
          let v := p2.cur.value
          let p3 ← p2.advance
          pure (some ({ opts with tablespace := some v }, p3))
      else
        pure none
    match ← step with
    | none => pure (opts, p)
    | some (opts2, p2) => do
      let (_, p3) ← p2.matchTV LexemeType.OPERATOR ","
      Parser.parseTableOptions fuel opts2 p3

/-- The `dynamic_cast<Binary_op*>(left.release())` at the end of
`Parser::parse_factor`: a null pointer results unless the expression is a
`Binary_op` node. -/
def castBinaryOp : Option Ast → Option Ast
  | some (Ast.binaryOp op l r) => some (Ast.binaryOp op l r)
  | _ => none

mutual

/-- `Parser::parse_expression`: `parse_term`, then a left fold over
`parse_operator`. -/
def Parser.parseExpression (fuel : Nat) (p : Parser) : Except String (Option Ast × Parser) :=
  match fuel with
  | 0 => fuelErr
  | fuel + 1 => do
    let (left, p1) ← Parser.parseTerm fuel p
    Parser.parseExpressionLoop fuel left p1

/-- The `while (auto op_type = parse_operator())` loop of
`Parser::parse_expression`. -/
def Parser.parseExpressionLoop (fuel : Nat) (left : Option Ast) (p : Parser) :
    Except String (Option Ast × Parser) :=
  match fuel with
  | 0 => fuelErr
  | fuel + 1 =>
    match p.parseOperator with
    | none => pure (left, p)
    | some op => do
      let p1 ← p.advance
      let (right, p2) ← Parser.parseTerm fuel p1
      Parser.parseExpressionLoop fuel (some (Ast.binaryOp op left right)) p2

/-- `Parser::parse_term`: `parse_factor`, then the same operator fold. -/
def Parser.parseTerm (fuel : Nat) (p : Parser) : Except String (Option Ast × Parser) :=
  match fuel with
  | 0 => fuelErr
  | fuel + 1 => do
    let (left, p1) ← Parser.parseFactor fuel p
    Parser.parseTermLoop fuel left p1

/-- The operator fold loop of `Parser::parse_term`. -/
def Parser.parseTermLoop (fuel : Nat) (left : Option Ast) (p : Parser) :
    Except String (Option Ast × Parser) :=
  match fuel with
  | 0 => fuelErr
  | fuel + 1 =>
    match p.parseOperator with
    | none => pure (left, p)
    | some op => do
      let p1 ← p.advance
      let (right, p2) ← Parser.parseFactor fuel p1
      Parser.parseTermLoop fuel (some (Ast.binaryOp op left right)) p2

/-- `Parser::parse_factor`: `parse_primary`, the operator fold, and the final
`dynamic_cast` to `Binary_op`. -/
def Parser.parseFactor (fuel : Nat) (p : Parser) : Except String (Option Ast × Parser) :=
  match fuel with
  | 0 => fuelErr
  | fuel + 1 => do
    let (left, p1) ← Parser.parsePrimary fuel p
    let (res, p2) ← Parser.parseFactorLoop fuel left p1
    pure (castBinaryOp res, p2)

/-- The operator fold loop of `Parser::parse_factor`. -/
def Parser.parseFactorLoop (fuel : Nat) (left : Option Ast) (p : Parser) :
    Except String (Option Ast × Parser) :=
  match fuel with
  | 0 => fuelErr
  | fuel + 1 =>
    match p.parseOperator with
    | none => pure (left, p)
    | some op => do
      let p1 ← p.advance
      let (right, p2) ← Parser.parsePrimary fuel p1
      Parser.parseFactorLoop fuel (some (Ast.binaryOp op left right)) p2

/-- `Parser::parse_primary`: parenthesized expression, function call (an
identifier followed by `(` — two short-circuited `peek(1)` calls), column
reference, or literal. -/
def Parser.parsePrimary (fuel : Nat) (p : Parser) : Except String (Option Ast × Parser) :=
  match fuel with
  | 0 => fuelErr
  | fuel + 1 => do
    let (paren, p1) ← p.matchTV LexemeType.OPERATOR "("
    if paren then do
      let (e, p2) ← Parser.parseExpression fuel p1
      let p3 ← p2.expectTV LexemeType.OPERATOR ")"
      pure (e, p3)
    else do
      let (isFn, p2) ←
        if p1.cur.type = LexemeType.IDENTIFIER then do
          let (l1, q1) ← p1.peek 1
          if l1.type = LexemeType.OPERATOR then do
            let (l2, q2) ← q1.peek 1
            pure (decide (l2.value = "("), q2)
          else
            pure (false, q1)
        else
          pure (false, p1)
      if isFn then do
        let (fc, p3) ← Parser.parseFunctionCall fuel p2
        pure ((some fc : Option Ast), p3)
      else if p2.cur.type = LexemeType.IDENTIFIER then do
        let (c, p3) ← p2.parseColumnRef
        pure (some (Ast.columnRef c), p3)
      else do
        let (l, p3) ← p2.parseLiteral
        pure (some l, p3)

/-- `Parser::parse_function_call`, including the `COUNT(*)` special case. -/
def Parser.parseFunctionCall (fuel : Nat) (p : Parser) : Except String (Ast × Parser) :=
  match fuel with
  | 0 => fuelErr
  | fuel + 1 =>
    if p.cur.type ≠ LexemeType.IDENTIFIER then
      Except.error "Expected function name at line"
    else do
      let name := p.cur.value
      let p1 ← p.advance
      let (opened, p2) ← p1.matchTV LexemeType.OPERATOR "("
      if ¬ opened then
        Except.error ("Expected opening parenthesis after function name '" ++ name ++ "'")
      else do
        let (star, p3) ←
          if name = "COUNT" then p2.matchTV LexemeType.OPERATOR "*"
          else pure (false, p2)
        if star then do
          let (closed, p4) ← p3.matchTV LexemeType.OPERATOR ")"
          if ¬ closed then
            Except.error "Expected closing parenthesis after COUNT(*)"
          else
            Parser.parseOptionalOverClause fuel name [] false true p4
        else do
          let (distinct, p4) ← p3.matchTV LexemeType.KEYWORD "DISTINCT"
          let (emptyArgs, p5) ← p4.matchTV LexemeType.OPERATOR ")"
          if emptyArgs then
            Parser.parseOptionalOverClause fuel name [] distinct false p5
          else do
            let (args, p6) ← Parser.parseFunctionArgsLoop fuel p5
            let (closed, p7) ← p6.matchTV LexemeType.OPERATOR ")"
            if ¬ closed then
              Except.error ("Expected closing parenthesis after function arguments in '" ++ name ++ "'")
            else
              Parser.parseOptionalOverClause fuel name args distinct false p7

/-- The do-while argument loop of `Parser::parse_function_call`. -/
def Parser.parseFunctionArgsLoop (fuel : Nat) (p : Parser) :
    Except String (List (Option Ast) × Parser) :=
  match fuel with
  | 0 => fuelErr
  | fuel + 1 => do
    let (arg, p1) ← Parser.parseExpression fuel p
    let (comma, p2) ← p1.matchTV LexemeType.OPERATOR ","
    if comma then do
      let (args, p3) ← Parser.parseFunctionArgsLoop fuel p2
      pure (arg :: args, p3)
    else
      pure ([arg], p2)

/-- `Parser::parse_optional_over_clause` applied to the function-call node
under construction. -/
def Parser.parseOptionalOverClause (fuel : Nat) (name : String)
    (args : List (Option Ast)) (distinct : Bool) (star : Bool) (p : Parser) :
    Except String (Ast × Parser) :=
  match fuel with
  | 0 => fuelErr
  | fuel + 1 => do
    let (bOver, p1) ← p.matchTV LexemeType.KEYWORD "OVER"
    if bOver then do
      let (w, p2) ← Parser.parseWindowSpecification fuel p1
      pure (Ast.functionCall name args distinct star (some w), p2)
    else
      pure (Ast.functionCall name args distinct star none, p1)

/-- `Parser::parse_window_specification`. -/
def Parser.parseWindowSpecification (fuel : Nat) (p : Parser) :
    Except String (WindowSpec × Parser) :=
  match fuel with
  | 0 => fuelErr
  | fuel + 1 => do
    let (isOp, p1) ←
      if p.cur.type = LexemeType.IDENTIFIER then p.peekIsOperator "("
      else pure (true, p)
    if p1.cur.type = LexemeType.IDENTIFIER ∧ ¬ isOp then do
      let name := p1.cur.value
      let p2 ← p1.advance
      pure (WindowSpec.mk (some name) none [] none, p2)
    else do
      let (opened, p2) ← p1.matchTV LexemeType.OPERATOR "("
      if ¬ opened then
        Except.error "Expected opening parenthesis after OVER"
      else
        Parser.parseWindowLoop fuel none [] none p2

/-- The `for (;;)` clause loop of `Parser::parse_window_specification`; after
every recognized clause the source requires a closing parenthesis before
iterating. -/
def Parser.parseWindowLoop (fuel : Nat) (partitionV : Option (List ColRef))
    (orderV : List OrderByItem) (frameV : Option Frame) (p : Parser) :
    Except String (WindowSpec × Parser) :=
  match fuel with
  | 0 => fuelErr
  | fuel + 1 => do
    let step : Except String (Option ((Option (List ColRef) × List OrderByItem × Option Frame) × Parser)) := do
      let (bPartition, p1) ← p.matchTV LexemeType.KEYWORD "PARTITION"
      if bPartition then do
        let (bBy, p2) ← p1.matchTV LexemeType.KEYWORD "BY"
        if ¬ bBy then Except.error "Expected BY after PARTITION"
        else do
          let (cols, p3) ← p2.parsePartitionBy fuel
          pure (some ((some cols, orderV, frameV), p3))
      else do
      let (bOrder, p1) ← p1.matchTV LexemeType.KEYWORD "ORDER"
      if bOrder then do
        let (bBy, p2) ← p1.matchTV LexemeType.KEYWORD "BY"
        if ¬ bBy then Except.error "Expected BY after ORDER"
        else do
          let (items, p3) ← p2.parseOrderBy fuel
          pure (some ((partitionV, items, frameV), p3))
      else do
      let (bRows, p1) ← p1.matchTV LexemeType.KEYWORD "ROWS"
      let (bRange, p1) ←
        if bRows then pure (false, p1) else p1.matchTV LexemeType.KEYWORD "RANGE"
      let (bGroups, p1) ←
        if bRows ∨ bRange then pure (false, p1) else p1.matchTV LexemeType.KEYWORD "GROUPS"
      if bRows ∨ bRange ∨ bGroups then do
        let ftype :=
          if p1.prevLexeme.value = "ROWS" then FrameType.rows
          else if p1.prevLexeme.value = "RANGE" then FrameType.range
          else FrameType.groups
        let (fr, p2) ← Parser.parseFrameClause fuel ftype p1
        pure (some ((partitionV, orderV, some fr), p2))
      else
        pure none
    match ← step with
    | none => pure (WindowSpec.mk none partitionV orderV frameV, p)
    | some ((pv, ov, fv), p2) => do
      let (closed, p3) ← p2.matchTV LexemeType.OPERATOR ")"
      if ¬ closed then
        Except.error "Expected closing parenthesis in window specification"
      else
        Parser.parseWindowLoop fuel pv ov fv p3

/-- `Parser::parse_frame_clause`.  In the single-bound case the source moves
`m_start` into `m_end`, leaving the start bound's offset pointer null. -/
def Parser.parseFrameClause (fuel : Nat) (ftype : FrameType) (p : Parser) :
    Except String (Frame × Parser) :=
  match fuel with
  | 0 => fuelErr
  | fuel + 1 => do
    let (bBetween, p1) ← p.matchTV LexemeType.KEYWORD "BETWEEN"
    let (fstart, fend, p2) ←
      if bBetween then do
        let (b1, q1) ← Parser.parseFrameBound fuel p1
        let (bAnd, q2) ← q1.matchTV LexemeType.KEYWORD "AND"
        if ¬ bAnd then Except.error "Expected AND in frame clause"
        else do
          let (b2, q3) ← Parser.parseFrameBound fuel q2
          pure (b1, b2, q3)
      else do
        let (b1, q1) ← Parser.parseFrameBound fuel p1
        match b1 with
        | FrameBound.mk t o => pure (FrameBound.mk t none, FrameBound.mk t o, q1)
    let (bExclude, p3) ← p2.matchTV LexemeType.KEYWORD "EXCLUDE"
    if bExclude then do
      let (bCur, p4) ← p3.matchTV LexemeType.KEYWORD "CURRENT"
      if bCur then do
        let (bRow, p5) ← p4.matchTV LexemeType.KEYWORD "ROW"
        if ¬ bRow then Except.error "Expected ROW after CURRENT"
        else pure (Frame.mk ftype fstart fend (some FrameExclude.currentRow), p5)
      else do
        let (bGroup, p4) ← p4.matchTV LexemeType.KEYWORD "GROUP"
        if bGroup then pure (Frame.mk ftype fstart fend (some FrameExclude.group), p4)
        else do
          let (bTies, p4) ← p4.matchTV LexemeType.KEYWORD "TIES"
          if bTies then pure (Frame.mk ftype fstart fend (some FrameExclude.ties), p4)
          else do
            let (bNo, p4) ← p4.matchTV LexemeType.KEYWORD "NO"
            if bNo then do
              let (bOthers, p5) ← p4.matchTV LexemeType.KEYWORD "OTHERS"
              if ¬ bOthers then Except.error "Expected OTHERS after NO"
              else pure (Frame.mk ftype fstart fend (some FrameExclude.noOthers), p5)
            else
              Except.error "Invalid EXCLUDE clause in frame specification"
    else
      pure (Frame.mk ftype fstart fend none, p3)

/-- `Parser::parse_frame_bound`. -/
def Parser.parseFrameBound (fuel : Nat) (p : Parser) :
    Except String (FrameBound × Parser) :=
  match fuel with
  | 0 => fuelErr
  | fuel + 1 => do
    let (bCur, p1) ← p.matchTV LexemeType.KEYWORD "CURRENT"
    if bCur then do
      let (bRow, p2) ← p1.matchTV LexemeType.KEYWORD "ROW"
      if ¬ bRow then Except.error "Expected ROW after CURRENT"
      else pure (FrameBound.mk BoundType.currentRow none, p2)
    else do
      let (bUnbounded, p2) ← p1.matchTV LexemeType.KEYWORD "UNBOUNDED"
      if bUnbounded then do
        let (bPrec, p3) ← p2.matchTV LexemeType.KEYWORD "PRECEDING"
        if bPrec then pure (FrameBound.mk BoundType.unboundedPreceding none, p3)
        else do
          let (bFoll, p4) ← p3.matchTV LexemeType.KEYWORD "FOLLOWING"
          if bFoll then pure (FrameBound.mk BoundType.unboundedFollowing none, p4)
          else Except.error "Expected PRECEDING or FOLLOWING after UNBOUNDED"
      else do
        let (offset, p3) ← Parser.parseExpression fuel p2
        let (bPrec, p4) ← p3.matchTV LexemeType.KEYWORD "PRECEDING"
        if bPrec then pure (FrameBound.mk BoundType.preceding offset, p4)
        else do
          let (bFoll, p5) ← p4.matchTV LexemeType.KEYWORD "FOLLOWING"
          if bFoll then pure (FrameBound.mk BoundType.following offset, p5)
          else Except.error "Expected PRECEDING or FOLLOWING"

end

/-- `Parser::parse_column_expression`: function call, CASE (rejected), or a
general expression; then the AS alias that only column references accept. -/
def Parser.parseColumnExpression (fuel : Nat) (p : Parser) :
    Except String (Option Ast × Parser) :=
  match fuel with
  | 0 => fuelErr
  | fuel + 1 => do
    let (isFn, p1) ←
      if p.cur.type = LexemeType.IDENTIFIER then do
        let (l1, q1) ← p.peek1
        if l1.type = LexemeType.OPERATOR then do
          let (l2, q2) ← q1.peek1
          pure (decide (l2.value = "("), q2)
        else
          pure (false, q1)
      else
        pure (false, p)
    let (expr, p2) ←
      if isFn then do
        let (fc, q) ← Parser.parseFunctionCall fuel p1
        pure ((some fc : Option Ast), q)
      else do
        let (bCase, q1) ← p1.matchTV LexemeType.KEYWORD "CASE"
        if bCase then
          Except.error "Case expressions are not supported"
        else
          Parser.parseExpression fuel q1
    let (bAs, p3) ← p2.matchTV LexemeType.KEYWORD "AS"
    if bAs then
      if p3.cur.type ≠ LexemeType.IDENTIFIER then
        Except.error "Expected identifier after AS"
      else
        match expr with
        | some (Ast.columnRef c) => do
          let a := p3.cur.value
          let p4 ← p3.advance
          pure (some (Ast.columnRef { c with aliasName := some a }), p4)
        | _ => Except.error "Alias can only be applied to column references"
    else
      pure (expr, p3)

/-- The do-while loop of `Parser::parse_column_list`. -/
def Parser.parseColumnExprsLoop (fuel : Nat) (p : Parser) :
    Except String (List (Option Ast) × Parser) :=
  match fuel with
  | 0 => fuelErr
  | fuel + 1 => do
    let (e, p1) ← Parser.parseColumnExpression fuel p
    let (comma, p2) ← p1.matchTV LexemeType.OPERATOR ","
    if comma then do
      let (es, p3) ← Parser.parseColumnExprsLoop fuel p2
      pure (e :: es, p3)
    else
      pure ([e], p2)

/-- `Parser::parse_column_list` with its `SELECT *` special case. -/
def Parser.parseColumnList (fuel : Nat) (p : Parser) :
    Except String (List (Option Ast) × Parser) :=
  match fuel with
  | 0 => fuelErr
  | fuel + 1 => do
    let (bStar, p1) ← p.matchTV LexemeType.OPERATOR "*"
    if bStar then
      pure ([some (Ast.columnRef { columnName := "*" })], p1)
    else
      Parser.parseColumnExprsLoop fuel p1

/-- `Parser::parse_where_clause`. -/
def Parser.parseWhereClause (fuel : Nat) (p : Parser) :
    Except String (WhereClause × Parser) :=
  match fuel with
  | 0 => fuelErr
  | fuel + 1 => do
    let (cond, p1) ← Parser.parseExpression fuel p
    pure ({ condition := cond }, p1)

/-- The join recognition of `Parser::parse_table_references`: try
`INNER`/`JOIN`, `LEFT [OUTER [JOIN]]`, `RIGHT [OUTER [JOIN]]`,
`FULL [OUTER [JOIN]]` in the source's order. -/
def Parser.joinTypeStep (p : Parser) : Except String (Option JoinType × Parser) := do
  let (bInner, p1) ← p.matchTV LexemeType.KEYWORD "INNER"
  let (bJoin, p1) ←
    if bInner then pure (false, p1) else p1.matchTV LexemeType.KEYWORD "JOIN"
  if bInner ∨ bJoin then
    pure ((some JoinType.inner : Option JoinType), p1)
  else do
    let (bLeft, p2) ← p1.matchTV LexemeType.KEYWORD "LEFT"
    if bLeft then do
      let (bOuter, p3) ← p2.matchTV LexemeType.KEYWORD "OUTER"
      let p4 ←
        if bOuter then do
          let (_, q) ← p3.matchTV LexemeType.KEYWORD "JOIN"
          pure q
        else pure p3
      pure (some JoinType.left, p4)
    else do
      let (bRight, p3) ← p2.matchTV LexemeType.KEYWORD "RIGHT"
      if bRight then do
        let (bOuter, p4) ← p3.matchTV LexemeType.KEYWORD "OUTER"
        let p5 ←
          if bOuter then do
            let (_, q) ← p4.matchTV LexemeType.KEYWORD "JOIN"
            pure q
          else pure p4
        pure (some JoinType.right, p5)
      else do
        let (bFull, p4) ← p3.matchTV LexemeType.KEYWORD "FULL"
        if bFull then do
          let (bOuter, p5) ← p4.matchTV LexemeType.KEYWORD "OUTER"
          let p6 ←
            if bOuter then do
              let (_, q) ← p5.matchTV LexemeType.KEYWORD "JOIN"
              pure q
            else pure p5
          pure (some JoinType.full, p6)
        else
          pure (none, p4)

/-- The `for (;;)` join loop of `Parser::parse_table_references`.  After
building the `Join` node and parsing the ON condition the source
unconditionally throws "JOINs are not supported". -/
def Parser.parseJoinLoop (fuel : Nat) (table : TableRef) (p : Parser) :
    Except String (TableRef × Parser) :=
  match fuel with
  | 0 => fuelErr
  | fuel + 1 => do
    let (jt, p1) ← p.joinTypeStep
    match jt with
    | none => pure (table, p1)
    | some jtype => do
      let (bJoin, p2) ← p1.matchTV LexemeType.KEYWORD "JOIN"
      if ¬ bJoin then
        Except.error "Expected JOIN keyword"
      else do
        let (right, p3) ← p2.parseTableReference
        let (bOn, p4) ← p3.matchTV LexemeType.KEYWORD "ON"
        if ¬ bOn then
          Except.error "Expected ON after JOIN"
        else do
          let (cond, _p5) ← Parser.parseExpression fuel p4
          let _join : Join :=
            { jtype := jtype, left := table, right := right, condition := cond }
          Except.error "JOINs are not supported"

/-- The outer do-while (comma) loop of `Parser::parse_table_references`. -/
def Parser.parseTableRefsLoop (fuel : Nat) (p : Parser) :
    Except String (List TableRef × Parser) :=
  match fuel with
  | 0 => fuelErr
  | fuel + 1 => do
    let (t, p1) ← p.parseTableReference
    let (t2, p2) ← Parser.parseJoinLoop fuel t p1
    let (comma, p3) ← p2.matchTV LexemeType.OPERATOR ","
    if comma then do
      let (ts, p4) ← Parser.parseTableRefsLoop fuel p3
      pure (t2 :: ts, p4)
    else
      pure ([t2], p3)

/-- `Parser::parse_table_references`. -/
def Parser.parseTableReferences (fuel : Nat) (p : Parser) :
    Except String (List TableRef × Parser) :=
  Parser.parseTableRefsLoop fuel p

/-- The optional-clause `for (;;)` loop of `Parser::parse_select_statement`,
with its duplicate-clause diagnostics and the HAVING/GROUP BY rule. -/
def Parser.parseSelectClauses (fuel : Nat) (sel : SelectStmt) (p : Parser) :
    Except String (SelectStmt × Parser) :=
  match fuel with
  | 0 => fuelErr
  | fuel + 1 => do
    let (bWhere, p1) ← p.matchTV LexemeType.KEYWORD "WHERE"
    if bWhere then
      if sel.whereClause.isSome then
        Except.error "Duplicate WHERE clause"
      else do
        let (w, p2) ← Parser.parseWhereClause fuel p1
        Parser.parseSelectClauses fuel { sel with whereClause := some w } p2
    else do
    let (bGroup, p1) ← p1.matchTV LexemeType.KEYWORD "GROUP"
    if bGroup then
      if sel.groupBy.isSome then
        Except.error "Duplicate GROUP BY clause"
      else do
        let (bBy, p2) ← p1.matchTV LexemeType.KEYWORD "BY"
        if ¬ bBy then
          Except.error "Expected BY after GROUP"
        else do
          let (g, p3) ← p2.parseGroupBy fuel
          Parser.parseSelectClauses fuel { sel with groupBy := some g } p3
    else do
    let (bHaving, p1) ← p1.matchTV LexemeType.KEYWORD "HAVING"
    if bHaving then
      match sel.groupBy with
      | none => Except.error "HAVING clause without GROUP BY"
      | some g =>
        if g.having.isSome then
          Except.error "Duplicate HAVING clause"
        else do
          let (e, p2) ← Parser.parseExpression fuel p1
          Parser.parseSelectClauses fuel { sel with groupBy := some { g with having := e } } p2
    else do
    let (bOrder, p1) ← p1.matchTV LexemeType.KEYWORD "ORDER"
    if bOrder then
      if sel.orderBy ≠ [] then
        Except.error "Duplicate ORDER BY clause"
      else do
        let (bBy, p2) ← p1.matchTV LexemeType.KEYWORD "BY"
        if ¬ bBy then
          Except.error "Expected BY after ORDER"
        else do
          let (items, p3) ← p2.parseOrderBy fuel
          Parser.parseSelectClauses fuel { sel with orderBy := items } p3
    else do
    let (bLimit, p1) ← p1.matchTV LexemeType.KEYWORD "LIMIT"
    if bLimit then
      if sel.limit.isSome then
        Except.error "Duplicate LIMIT clause"
      else do
        let (n, p2) ← p1.parseLimit
        Parser.parseSelectClauses fuel { sel with limit := n } p2
    else
      pure (sel, p1)

/-- `Parser::parse_select_statement` (called after the SELECT keyword has
been consumed). -/
def Parser.parseSelectStatement (fuel : Nat) (p : Parser) :
    Except String (SelectStmt × Parser) :=
  match fuel with
  | 0 => fuelErr
  | fuel + 1 => do
    let (bDistinct, p1) ← p.matchTV LexemeType.KEYWORD "DISTINCT"
    let (cols, p2) ← Parser.parseColumnList fuel p1
    let (bFrom, p3) ← p2.matchTV LexemeType.KEYWORD "FROM"
    if ¬ bFrom then
      Except.error "Expected FROM clause"
    else do
      let (froms, p4) ← Parser.parseTableReferences fuel p3
      Parser.parseSelectClauses fuel
        { distinct := bDistinct, columns := cols, fromTables := froms } p4

/-- `Parser::parse_update_assignments` (do-while loop). -/
def Parser.parseUpdateAssignments (fuel : Nat) (p : Parser) :
    Except String (List Assignment × Parser) :=
  match fuel with
  | 0 => fuelErr
  | fuel + 1 =>
    if p.cur.type ≠ LexemeType.IDENTIFIER then
      Except.error "Expected column name"
    else do
      let col := p.cur.value
      let p1 ← p.advance
      let (beq, p2) ← p1.matchTV LexemeType.OPERATOR "="
      if ¬ beq then
        Except.error "Expected = in assignment"
      else do
        let (v, p3) ← Parser.parseExpression fuel p2
        let a : Assignment := { column := col, value := v }
        let (comma, p4) ← p3.matchTV LexemeType.OPERATOR ","
        if comma then do
          let (as2, p5) ← Parser.parseUpdateAssignments fuel p4
          pure (a :: as2, p5)
        else
          pure ([a], p4)

/-- `Parser::parse_update_statement` (called after UPDATE). -/
def Parser.parseUpdateStatement (fuel : Nat) (p : Parser) :
    Except String (UpdateStmt × Parser) :=
  match fuel with
  | 0 => fuelErr
  | fuel + 1 => do
    let (table, p1) ← p.parseTableReference
    let (bSet, p2) ← p1.matchTV LexemeType.KEYWORD "SET"
    if ¬ bSet then
      Except.error "Expected SET clause"
    else do
      let (assigns, p3) ← Parser.parseUpdateAssignments fuel p2
      let (bWhere, p4) ← p3.matchTV LexemeType.KEYWORD "WHERE"
      let (whereV, p5) ←
        if bWhere then do
          let (w, q) ← Parser.parseWhereClause fuel p4
          pure ((some w : Option WhereClause), q)
        else pure (none, p4)
      let (bOrder, p6) ← p5.matchTV LexemeType.KEYWORD "ORDER"
      let (orderV, p7) ←
        if bOrder then do
          let (bBy, q1) ← p6.matchTV LexemeType.KEYWORD "BY"
          if ¬ bBy then Except.error "Expected BY after ORDER"
          else q1.parseOrderBy fuel
        else pure ([], p6)
      let (bLimit, p8) ← p7.matchTV LexemeType.KEYWORD "LIMIT"
      let (limitV, p9) ←
        if bLimit then p8.parseLimit
        else pure (none, p8)
      pure ({ table := table, assignments := assigns, whereClause := whereV,
              orderBy := orderV, limit := limitV }, p9)

/-- `Parser::parse_delete_statement` (called after DELETE). -/
def Parser.parseDeleteStatement (fuel : Nat) (p : Parser) :
    Except String (DeleteStmt × Parser) :=
  match fuel with
  | 0 => fuelErr
  | fuel + 1 => do
    let (bFrom, p1) ← p.matchTV LexemeType.KEYWORD "FROM"
    if ¬ bFrom then
      Except.error "Expected FROM after DELETE"
    else do
      let (table, p2) ← p1.parseTableReference
      let (bUsing, p3) ← p2.matchTV LexemeType.KEYWORD "USING"
      let (usingV, p4) ←
        if bUsing then do
          let (ts, q) ← Parser.parseTableReferences fuel p3
          pure ((some ts : Option (List TableRef)), q)
        else pure (none, p3)
      let (bWhere, p5) ← p4.matchTV LexemeType.KEYWORD "WHERE"
      let (whereV, p6) ←
        if bWhere then do
          let (w, q) ← Parser.parseWhereClause fuel p5
          pure ((some w : Option WhereClause), q)
        else pure (none, p5)
      let (bOrder, p7) ← p6.matchTV LexemeType.KEYWORD "ORDER"
      let (orderV, p8) ←
        if bOrder then do
          let (bBy, q1) ← p7.matchTV LexemeType.KEYWORD "BY"
          if ¬ bBy then Except.error "Expected BY after ORDER"
          else q1.parseOrderBy fuel
        else pure ([], p7)
      let (bLimit, p9) ← p8.matchTV LexemeType.KEYWORD "LIMIT"
      let (limitV, p10) ←
        if bLimit then p9.parseLimit
        else pure (none, p9)
      pure ({ table := table, usingTables := usingV, whereClause := whereV,
              orderBy := orderV, limit := limitV }, p10)

/-- The inner do-while expression loop of `Parser::parse_value_lists`. -/
def Parser.parseValueExprsLoop (fuel : Nat) (p : Parser) :
    Except String (List (Option Ast) × Parser) :=
  match fuel with
  | 0 => fuelErr
  | fuel + 1 => do
    let (e, p1) ← Parser.parseExpression fuel p
    let (comma, p2) ← p1.matchTV LexemeType.OPERATOR ","
    if comma then do
      let (es, p3) ← Parser.parseValueExprsLoop fuel p2
      pure (e :: es, p3)
    else
      pure ([e], p2)

/-- `Parser::parse_value_lists` (outer do-while over parenthesized rows). -/
def Parser.parseValueLists (fuel : Nat) (p : Parser) :
    Except String (List (List (Option Ast)) × Parser) :=
  match fuel with
  | 0 => fuelErr
  | fuel + 1 => do
    let (opened, p1) ← p.matchTV LexemeType.OPERATOR "("
    if ¬ opened then
      Except.error "Expected opening parenthesis"
    else do
      let (vals, p2) ← Parser.parseValueExprsLoop fuel p1
      let (closed, p3) ← p2.matchTV LexemeType.OPERATOR ")"
      if ¬ closed then
        Except.error "Expected closing parenthesis"
      else do
        let (comma, p4) ← p3.matchTV LexemeType.OPERATOR ","
        if comma then do
          let (rows, p5) ← Parser.parseValueLists fuel p4
          pure (vals :: rows, p5)
        else
          pure ([vals], p4)

/-- The optional column-list loop of `Parser::parse_insert_statement`. -/
def Parser.parseInsertColsLoop (fuel : Nat) (p : Parser) :
    Except String (List String × Parser) :=
  match fuel with
  | 0 => fuelErr
  | fuel + 1 =>
    if p.cur.type ≠ LexemeType.IDENTIFIER then
      Except.error "Expected column name"
    else do
      let name := p.cur.value
      let p1 ← p.advance
      let (comma, p2) ← p1.matchTV LexemeType.OPERATOR ","
      if comma then do
        let (names, p3) ← Parser.parseInsertColsLoop fuel p2
        pure (name :: names, p3)
      else
        pure ([name], p2)

/-- `Parser::parse_insert_statement` (called after INSERT). -/
def Parser.parseInsertStatement (fuel : Nat) (p : Parser) :
    Except String (InsertStmt × Parser) :=
  match fuel with
  | 0 => fuelErr
  | fuel + 1 => do
    let (bInto, p1) ← p.matchTV LexemeType.KEYWORD "INTO"
    if ¬ bInto then
      Except.error "Expected INTO after INSERT"
    else if p1.cur.type ≠ LexemeType.IDENTIFIER then
      Except.error "Expected table name"
    else do
      let tname := p1.cur.value
      let p2 ← p1.advance
      let (bParen, p3) ← p2.matchTV LexemeType.OPERATOR "("
      let (cols, p4) ←
        if bParen then do
          let (names, q1) ← Parser.parseInsertColsLoop fuel p3
          let (closed, q2) ← q1.matchTV LexemeType.OPERATOR ")"
          if ¬ closed then Except.error "Expected closing parenthesis"
          else pure (names, q2)
        else pure ([], p3)
      let (bValues, p5) ← p4.matchTV LexemeType.KEYWORD "VALUES"
      let (vals, p6) ←
        if bValues then do
          let (rows, q) ← Parser.parseValueLists fuel p5
          pure (InsertValues.valueLists rows, q)
        else do
          let (bSelect, q1) ← p5.matchTV LexemeType.KEYWORD "SELECT"
          if bSelect then do
            let (s, q2) ← Parser.parseSelectStatement fuel q1
            pure (InsertValues.selectValues s, q2)
          else
            Except.error "Expected VALUES or SELECT"
      let (bOn, p7) ← p6.matchTV LexemeType.KEYWORD "ON"
      if bOn then do
        let (bDup, p8) ← p7.matchTV LexemeType.KEYWORD "DUPLICATE"
        if ¬ bDup then Except.error "Expected DUPLICATE after ON"
        else do
          let (bKey, p9) ← p8.matchTV LexemeType.KEYWORD "KEY"
          if ¬ bKey then Except.error "Expected KEY after DUPLICATE"
          else do
            let (bUpd, p10) ← p9.matchTV LexemeType.KEYWORD "UPDATE"
            if ¬ bUpd then Except.error "Expected UPDATE after KEY"
            else do
              let (assigns, p11) ← Parser.parseUpdateAssignments fuel p10
              pure ({ tableName := tname, columns := cols, values := vals,
                      onDuplicate := some assigns }, p11)
      else
        pure ({ tableName := tname, columns := cols, values := vals,
                onDuplicate := none }, p7)

/-- The column-constraint `while (true)` loop of
`Parser::parse_column_definition`. -/
def Parser.columnConstraintLoop (fuel : Nat) (col : ColumnDef) (p : Parser) :
    Except String (ColumnDef × Parser) :=
  match fuel with
  | 0 => fuelErr
  | fuel + 1 => do
    let (bNot, p1) ← p.matchTV LexemeType.KEYWORD "NOT"
    if bNot then do
      let (bNull, p2) ← p1.matchTV LexemeType.KEYWORD "NULL"
      if ¬ bNull then Except.error "Expected NULL after NOT"
      else Parser.columnConstraintLoop fuel { col with nullable := false } p2
    else do
    let (bNull, p1) ← p1.matchTV LexemeType.KEYWORD "NULL"
    if bNull then
      Parser.columnConstraintLoop fuel { col with nullable := true } p1
    else do
    let (bDefault, p1) ← p1.matchTV LexemeType.KEYWORD "DEFAULT"
    if bDefault then do
      let (e, p2) ← Parser.parseExpression fuel p1
      Parser.columnConstraintLoop fuel { col with defaultValue := e } p2
    else do
    let (bPrimary, p1) ← p1.matchTV LexemeType.KEYWORD "PRIMARY"
    if bPrimary then do
      let (bKey, p2) ← p1.matchTV LexemeType.KEYWORD "KEY"
      if ¬ bKey then Except.error "Expected KEY after PRIMARY"
      else Parser.columnConstraintLoop fuel { col with primaryKey := true } p2
    else do
    let (bUnique, p1) ← p1.matchTV LexemeType.KEYWORD "UNIQUE"
    if bUnique then
      Parser.columnConstraintLoop fuel { col with uniqueFlag := true } p1
    else do
    let (bCheck, p1) ← p1.matchTV LexemeType.KEYWORD "CHECK"
    if bCheck then do
      let (opened, p2) ← p1.matchTV LexemeType.OPERATOR "("
      if ¬ opened then Except.error "Expected opening parenthesis"
      else do
        let (e, p3) ← Parser.parseExpression fuel p2
        let (closed, p4) ← p3.matchTV LexemeType.OPERATOR ")"
        if ¬ closed then Except.error "Expected closing parenthesis"
        else Parser.columnConstraintLoop fuel { col with check := e } p4
    else do
    let (bRef, p1) ← p1.matchTV LexemeType.KEYWORD "REFERENCES"
    if bRef then do
      let (r, p2) ← Parser.parseForeignKeyReference fuel p1
      Parser.columnConstraintLoop fuel { col with references := some r } p2
    else do
    let (bAuto, p1) ← p1.matchTV LexemeType.KEYWORD "AUTO_INCREMENT"
    if bAuto then
      Parser.columnConstraintLoop fuel { col with autoIncrement := true } p1
    else do
    let (bComment, p1) ← p1.matchTV LexemeType.KEYWORD "COMMENT"
    if bComment then
      if p1.cur.type ≠ LexemeType.STRING_LITERAL then
        Except.error "Expected string literal for comment"
      else do
        let v := p1.cur.value
        let p2 ← p1.advance
        Parser.columnConstraintLoop fuel { col with comment := some v } p2
    else
      pure (col, p1)

/-- `Parser::parse_column_definition`. -/
def Parser.parseColumnDefinition (fuel : Nat) (p : Parser) :
    Except String (ColumnDef × Parser) :=
  match fuel with
  | 0 => fuelErr
  | fuel + 1 =>
    if p.cur.type ≠ LexemeType.IDENTIFIER then
      Except.error "Expected column name"
    else do
      let name := p.cur.value
      let p1 ← p.advance
      let (dtype, p2) ← p1.parseDataType fuel
      Parser.columnConstraintLoop fuel { name := name, dtype := dtype } p2

/-- `Parser::parse_table_constraint` (called with the introducing keyword
already consumed by `parse_create_table`). -/
def Parser.parseTableConstraint (fuel : Nat) (p : Parser) :
    Except String (TableConstraint × Parser) :=
  match fuel with
  | 0 => fuelErr
  | fuel + 1 => do
    let (nameV, p1) ←
      if p.cur.type = LexemeType.IDENTIFIER then do
        let v := p.cur.value
        let q ← p.advance
        pure ((some v : Option String), q)
      else pure (none, p)
    let (bPrimary, p2) ← p1.matchTV LexemeType.KEYWORD "PRIMARY"
    if bPrimary then do
      let (bKey, p3) ← p2.matchTV LexemeType.KEYWORD "KEY"
      if ¬ bKey then Except.error "Expected KEY after PRIMARY"
      else do
        let (cols, p4) ← Parser.parseColumnListInParentheses fuel p3
        pure ({ name := nameV, ctype := TCType.primaryKey, columns := cols }, p4)
    else do
    let (bForeign, p2) ← p2.matchTV LexemeType.KEYWORD "FOREIGN"
    if bForeign then do
      let (bKey, p3) ← p2.matchTV LexemeType.KEYWORD "KEY"
      if ¬ bKey then Except.error "Expected KEY after FOREIGN"
      else do
        let (cols, p4) ← Parser.parseColumnListInParentheses fuel p3
        let (bRef, p5) ← p4.matchTV LexemeType.KEYWORD "REFERENCES"
        if ¬ bRef then Except.error "Expected REFERENCES"
        else do
          let (r, p6) ← Parser.parseForeignKeyReference fuel p5
          pure ({ name := nameV, ctype := TCType.foreignKey, columns := cols,
                  reference := some r }, p6)
    else do
    let (bUnique, p2) ← p2.matchTV LexemeType.KEYWORD "UNIQUE"
    if bUnique then do
      let (cols, p3) ← Parser.parseColumnListInParentheses fuel p2
      pure ({ name := nameV, ctype := TCType.uniqueT, columns := cols }, p3)
    else do
    let (bCheck, p2) ← p2.matchTV LexemeType.KEYWORD "CHECK"
    if bCheck then do
      let (opened, p3) ← p2.matchTV LexemeType.OPERATOR "("
      if ¬ opened then Except.error "Expected opening parenthesis"
      else do
        let (e, p4) ← Parser.parseExpression fuel p3
        let (closed, p5) ← p4.matchTV LexemeType.OPERATOR ")"
        if ¬ closed then Except.error "Expected closing parenthesis"
        else pure ({ name := nameV, ctype := TCType.check, check := e }, p5)
    else
      Except.error "Unknown constraint type"

/-- The column/constraint do-while loop of `Parser::parse_create_table`.
The source consumes one of CONSTRAINT/PRIMARY/FOREIGN/UNIQUE before calling
`parse_table_constraint` (which then looks for those keywords again). -/
def Parser.createTableItemsLoop (fuel : Nat) (cols : List ColumnDef)
    (constraints : List TableConstraint) (p : Parser) :
    Except String (List ColumnDef × List TableConstraint × Parser) :=
  match fuel with
  | 0 => fuelErr
  | fuel + 1 => do
    let (b1, p1) ← p.matchTV LexemeType.KEYWORD "CONSTRAINT"
    let (b2, p1) ←
      if b1 then pure (false, p1) else p1.matchTV LexemeType.KEYWORD "PRIMARY"
    let (b3, p1) ←
      if b1 ∨ b2 then pure (false, p1) else p1.matchTV LexemeType.KEYWORD "FOREIGN"
    let (b4, p1) ←
      if b1 ∨ b2 ∨ b3 then pure (false, p1) else p1.matchTV LexemeType.KEYWORD "UNIQUE"
    let (cols2, constraints2, p2) ←
      if b1 ∨ b2 ∨ b3 ∨ b4 then do
        let (tc, q) ← Parser.parseTableConstraint fuel p1
        pure (cols, constraints ++ [tc], q)
      else do
        let (cd, q) ← Parser.parseColumnDefinition fuel p1
        pure (cols ++ [cd], constraints, q)
    let (comma, p3) ← p2.matchTV LexemeType.OPERATOR ","
    if comma then
      Parser.createTableItemsLoop fuel cols2 constraints2 p3
    else
      pure (cols2, constraints2, p3)

/-- `Parser::parse_create_table`. -/
def Parser.parseCreateTable (fuel : Nat) (p : Parser) :
    Except String (CreateTableDef × Parser) :=
  match fuel with
  | 0 => fuelErr
  | fuel + 1 =>
    if p.cur.type ≠ LexemeType.IDENTIFIER then
      Except.error "Expected table name"
    else do
      let tname := p.cur.value
      let p1 ← p.advance
      let (opened, p2) ← p1.matchTV LexemeType.OPERATOR "("
      if ¬ opened then
        Except.error "Expected opening parenthesis"
      else do
        let (cols, constraints, p3) ← Parser.createTableItemsLoop fuel [] [] p2
        let (closed, p4) ← p3.matchTV LexemeType.OPERATOR ")"
        if ¬ closed then
          Except.error "Expected closing parenthesis"
        else do
          let (opts, p5) ← Parser.parseTableOptions fuel {} p4
          pure ({ tableName := tname, columns := cols, constraints := constraints,
                  options := opts }, p5)

/-- The indexed-column do-while loop of `Parser::parse_create_index`. -/
def Parser.createIndexColsLoop (fuel : Nat) (p : Parser) :
    Except String (List IndexColumn × Parser) :=
  match fuel with
  | 0 => fuelErr
  | fuel + 1 => do
    let (bExpr, p1) ← p.matchTV LexemeType.OPERATOR "("
    let (base, p2) ←
      if bExpr then do
        let (e, q1) ← Parser.parseExpression fuel p1
        let (closed, q2) ← q1.matchTV LexemeType.OPERATOR ")"
        if ¬ closed then Except.error "Expected closing parenthesis"
        else pure (({ expression := e } : IndexColumn), q2)
      else
        if p1.cur.type ≠ LexemeType.IDENTIFIER then
          Except.error "Expected column name"
        else do
          let name := p1.cur.value
          let q ← p1.advance
          pure ({ columnName := some name }, q)
    let (bLen, p3) ← p2.matchTV LexemeType.OPERATOR "("
    let (base2, p4) ←
      if bLen then
        if p3.cur.type ≠ LexemeType.NUMBER then
          Except.error "Expected number"
        else do
          let n := stoullNat p3.cur.value
          let q1 ← p3.advance
          let (closed, q2) ← q1.matchTV LexemeType.OPERATOR ")"
          if ¬ closed then Except.error "Expected closing parenthesis"
          else pure ({ base with length := some n }, q2)
      else pure (base, p3)
    let (bAsc, p5) ← p4.matchTV LexemeType.KEYWORD "ASC"
    let (base3, p6) ←
      if bAsc then pure ({ base2 with ascending := true }, p5)
      else do
        let (bDesc, q) ← p5.matchTV LexemeType.KEYWORD "DESC"
        if bDesc then pure ({ base2 with ascending := false }, q)
        else pure (base2, q)
    let (comma, p7) ← p6.matchTV LexemeType.OPERATOR ","
    if comma then do
      let (cols, p8) ← Parser.createIndexColsLoop fuel p7
      pure (base3 :: cols, p8)
    else
      pure ([base3], p7)

/-- `Parser::parse_create_index`. -/
def Parser.parseCreateIndex (fuel : Nat) (p : Parser) :
    Except String (CreateIndexDef × Parser) :=
  match fuel with
  | 0 => fuelErr
  | fuel + 1 => do
    let (bUnique, p1) ← p.matchTV LexemeType.KEYWORD "UNIQUE"
    if p1.cur.type ≠ LexemeType.IDENTIFIER then
      Except.error "Expected index name"
    else do
      let iname := p1.cur.value
      let p2 ← p1.advance
      let (bOn, p3) ← p2.matchTV LexemeType.KEYWORD "ON"
      if ¬ bOn then
        Except.error "Expected ON"
      else if p3.cur.type ≠ LexemeType.IDENTIFIER then
        Except.error "Expected table name"
      else do
        let tname := p3.cur.value
        let p4 ← p3.advance
        let (opened, p5) ← p4.matchTV LexemeType.OPERATOR "("
        if ¬ opened then
          Except.error "Expected opening parenthesis"
        else do
          let (cols, p6) ← Parser.createIndexColsLoop fuel p5
          let (closed, p7) ← p6.matchTV LexemeType.OPERATOR ")"
          if ¬ closed then
            Except.error "Expected closing parenthesis"
          else do
            let (bUsing, p8) ← p7.matchTV LexemeType.KEYWORD "USING"
            if bUsing then
              if p8.cur.type ≠ LexemeType.IDENTIFIER then
                Except.error "Expected index type"
              else do
                let ty := p8.cur.value
                let p9 ← p8.advance
                pure ({ indexName := iname, tableName := tname, columns := cols,
                        uniqueFlag := bUnique, indexType := some ty }, p9)
            else
              pure ({ indexName := iname, tableName := tname, columns := cols,
                      uniqueFlag := bUnique, indexType := none }, p8)

/-- The optional column-name loop of `Parser::parse_create_view`. -/
def Parser.createViewColsLoop (fuel : Nat) (p : Parser) :
    Except String (List String × Parser) :=
  match fuel with
  | 0 => fuelErr
  | fuel + 1 =>
    if p.cur.type ≠ LexemeType.IDENTIFIER then
      Except.error "Expected column name"
    else do
      let name := p.cur.value
      let p1 ← p.advance
      let (comma, p2) ← p1.matchTV LexemeType.OPERATOR ","
      if comma then do
        let (names, p3) ← Parser.createViewColsLoop fuel p2
        pure (name :: names, p3)
      else
        pure ([name], p2)

/-- `Parser::parse_create_view`. -/
def Parser.parseCreateView (fuel : Nat) (p : Parser) :
    Except String (CreateViewDef × Parser) :=
  match fuel with
  | 0 => fuelErr
  | fuel + 1 => do
    let (bOr, p1) ← p.matchTV LexemeType.KEYWORD "OR"
    let (orReplace, p2) ←
      if bOr then do
        let (bReplace, q) ← p1.matchTV LexemeType.KEYWORD "REPLACE"
        if ¬ bReplace then Except.error "Expected REPLACE after OR"
        else pure (true, q)
      else pure (false, p1)
    if p2.cur.type ≠ LexemeType.IDENTIFIER then
      Except.error "Expected view name"
    else do
      let vname := p2.cur.value
      let p3 ← p2.advance
      let (bParen, p4) ← p3.matchTV LexemeType.OPERATOR "("
      let (colNames, p5) ←
        if bParen then do
          let (names, q1) ← Parser.createViewColsLoop fuel p4
          let (closed, q2) ← q1.matchTV LexemeType.OPERATOR ")"
          if ¬ closed then Except.error "Expected closing parenthesis"
          else pure (names, q2)
        else pure ([], p4)
      let (bAs, p6) ← p5.matchTV LexemeType.KEYWORD "AS"
      if ¬ bAs then
        Except.error "Expected AS"
      else do
        let (sel, p7) ← Parser.parseSelectStatement fuel p6
        let (bWith, p8) ← p7.matchTV LexemeType.KEYWORD "WITH"
        if bWith then do
          let (bCheck, p9) ← p8.matchTV LexemeType.KEYWORD "CHECK"
          if ¬ bCheck then Except.error "Expected CHECK after WITH"
          else do
            let (bOption, p10) ← p9.matchTV LexemeType.KEYWORD "OPTION"
            if ¬ bOption then Except.error "Expected OPTION after CHECK"
            else
              pure ({ viewName := vname, columnNames := colNames, select := sel,
                      withCheckOption := true, orReplace := orReplace }, p10)
        else
          pure ({ viewName := vname, columnNames := colNames, select := sel,
                  withCheckOption := false, orReplace := orReplace }, p8)

/-- `Parser::parse_create_statement` (called after CREATE). -/
def Parser.parseCreateStatement (fuel : Nat) (p : Parser) :
    Except String (CreateStmt × Parser) :=
  match fuel with
  | 0 => fuelErr
  | fuel + 1 => do
    let (bIf, p1) ← p.matchTV LexemeType.KEYWORD "IF"
    let (ifNot, p2) ←
      if bIf then do
        let (bNot, q1) ← p1.matchTV LexemeType.KEYWORD "NOT"
        if ¬ bNot then Except.error "Expected NOT after IF"
        else do
          let (bExists, q2) ← q1.matchTV LexemeType.KEYWORD "EXISTS"
          if ¬ bExists then Except.error "Expected EXISTS after NOT"
          else pure (true, q2)
      else pure (false, p1)
    let (bTable, p3) ← p2.matchTV LexemeType.KEYWORD "TABLE"
    if bTable then do
      let (d, p4) ← Parser.parseCreateTable fuel p3
      pure ({ objectType := CreateObjType.table, ifNotExists := ifNot,
              definition := CreateDef.tableDef d }, p4)
    else do
      let (bIndex, p4) ← p3.matchTV LexemeType.KEYWORD "INDEX"
      if bIndex then do
        let (d, p5) ← Parser.parseCreateIndex fuel p4
        pure ({ objectType := CreateObjType.index, ifNotExists := ifNot,
                definition := CreateDef.indexDef d }, p5)
      else do
        let (bView, p5) ← p4.matchTV LexemeType.KEYWORD "VIEW"
        if bView then do
          let (d, p6) ← Parser.parseCreateView fuel p5
          pure ({ objectType := CreateObjType.view, ifNotExists := ifNot,
                  definition := CreateDef.viewDef d }, p6)
        else
          Except.error "Unsupported CREATE statement type"

/-- The object-name do-while loop of `Parser::parse_drop_statement`. -/
def Parser.dropNamesLoop (fuel : Nat) (p : Parser) :
    Except String (List String × Parser) :=
  match fuel with
  | 0 => fuelErr
  | fuel + 1 =>
    if p.cur.type ≠ LexemeType.IDENTIFIER then
      Except.error "Expected object name"
    else do
      let name := p.cur.value
      let p1 ← p.advance
      let (comma, p2) ← p1.matchTV LexemeType.OPERATOR ","
      if comma then do
        let (names, p3) ← Parser.dropNamesLoop fuel p2
        pure (name :: names, p3)
      else
        pure ([name], p2)

/-- `Parser::parse_drop_statement` (called after DROP). -/
def Parser.parseDropStatement (fuel : Nat) (p : Parser) :
    Except String (DropStmt × Parser) :=
  match fuel with
  | 0 => fuelErr
  | fuel + 1 => do
    let (bIf, p1) ← p.matchTV LexemeType.KEYWORD "IF"
    let (ifEx, p2) ←
      if bIf then do
        let (bExists, q) ← p1.matchTV LexemeType.KEYWORD "EXISTS"
        if ¬ bExists then Except.error "Expected EXISTS after IF"
        else pure (true, q)
      else pure (false, p1)
    let (bTable, p3) ← p2.matchTV LexemeType.KEYWORD "TABLE"
    let (objType, p4) ←
      if bTable then pure (DropObjType.table, p3)
      else do
        let (bIndex, q1) ← p3.matchTV LexemeType.KEYWORD "INDEX"
        if bIndex then pure (DropObjType.index, q1)
        else do
          let (bView, q2) ← q1.matchTV LexemeType.KEYWORD "VIEW"
          if bView then pure (DropObjType.view, q2)
          else do
            let (bTrigger, q3) ← q2.matchTV LexemeType.KEYWORD "TRIGGER"
            if bTrigger then pure (DropObjType.trigger, q3)
            else do
              let (bSeq, _q4) ← q3.matchTV LexemeType.KEYWORD "SEQUENCE"
              if bSeq then Except.error "DROP SEQUENCE not implemented"
              else Except.error "Unknown object type for DROP"
    let (names, p5) ← Parser.dropNamesLoop fuel p4
    let (bCascade, p6) ← p5.matchTV LexemeType.KEYWORD "CASCADE"
    if bCascade then
      pure ({ cascade := true, ifExists := ifEx, objectType := objType,
              objectNames := names }, p6)
    else do
      let (bRestrict, p7) ← p6.matchTV LexemeType.KEYWORD "RESTRICT"
      if bRestrict then
        pure ({ cascade := false, ifExists := ifEx, objectType := objType,
                objectNames := names }, p7)
      else
        pure ({ cascade := false, ifExists := ifEx, objectType := objType,
                objectNames := names }, p7)

/-- `Parser::parse_alter_statement`: unconditionally throws. -/
def Parser.parseAlterStatement (p : Parser) : Except String (AstNode × Parser) :=
  let _ := p
  Except.error "ALTER not implemented"

/-- `Parser::parse_statement`: dispatch on the leading keyword. -/
def Parser.parseStatement (fuel : Nat) (p : Parser) :
    Except String (AstNode × Parser) :=
  match fuel with
  | 0 => fuelErr
  | fuel + 1 => do
    let (bSelect, p1) ← p.matchTV LexemeType.KEYWORD "SELECT"
    if bSelect then do
      let (s, p2) ← Parser.parseSelectStatement fuel p1
      pure (AstNode.selectNode s, p2)
    else do
    let (bInsert, p1) ← p1.matchTV LexemeType.KEYWORD "INSERT"
    if bInsert then do
      let (s, p2) ← Parser.parseInsertStatement fuel p1
      pure (AstNode.insertNode s, p2)
    else do
    let (bUpdate, p1) ← p1.matchTV LexemeType.KEYWORD "UPDATE"
    if bUpdate then do
      let (s, p2) ← Parser.parseUpdateStatement fuel p1
      pure (AstNode.updateNode s, p2)
    else do
    let (bDelete, p1) ← p1.matchTV LexemeType.KEYWORD "DELETE"
    if bDelete then do
      let (s, p2) ← Parser.parseDeleteStatement fuel p1
      pure (AstNode.deleteNode s, p2)
    else do
    let (bCreate, p1) ← p1.matchTV LexemeType.KEYWORD "CREATE"
    if bCreate then do
      let (s, p2) ← Parser.parseCreateStatement fuel p1
      pure (AstNode.createNode s, p2)
    else do
    let (bDrop, p1) ← p1.matchTV LexemeType.KEYWORD "DROP"
    if bDrop then do
      let (s, p2) ← Parser.parseDropStatement fuel p1
      pure (AstNode.dropNode s, p2)
    else do
    let (bAlter, p1) ← p1.matchTV LexemeType.KEYWORD "ALTER"
    if bAlter then
      p1.parseAlterStatement
    else
      Except.error ("Unexpected token at start of statement: " ++ p1.cur.value)

/-- `Parser::parse`: exactly `parse_statement`, with no end-of-input check. -/
def Parser.parse (fuel : Nat) (p : Parser) : Except String (AstNode × Parser) :=
  Parser.parseStatement fuel p

/-- Ample fuel for every concrete input in this development. -/
def ampleFuel : Nat := 200

/-- End-to-end run: construct lexer and parser over the input and call
`parse`, keeping only the resulting AST root. -/
def parseSql (s : String) : Except String AstNode := do
  let p ← Parser.init s.data
  let (n, _) ← Parser.parse ampleFuel p
  pure n

/-- End-to-end run that also reports the type and text of the lexeme that is
current when `parse` returns (what the parser left unconsumed). -/
def parseSqlWithRest (s : String) : Except String (AstNode × LexemeType × String) := do
  let p ← Parser.init s.data
  let (n, q) ← Parser.parse ampleFuel p
  pure (n, q.cur.type, q.cur.value)

/-- Run `parse_expression` over an input, as the expression grammar claims
describe it. -/
def parseExprSql (s : String) : Except String (Option Ast) := do
  let p ← Parser.init s.data
  let (e, _) ← Parser.parseExpression ampleFuel p
  pure e

/-! ## AST printers (`ast.cc`), as far as a `Select_stmt` can reach them.

Every `->to_string()` call on a `unique_ptr<Ast_base>` child dereferences the
pointer, so a null child makes the C++ printer crash; the embedding returns
`none` there.  The printers reproduce the source's text exactly, including the
duplicated `"\nORDER BY "` of `Select_stmt::to_string` and the missing space
before the bound type in `Window_spec::Frame::Bound::to_string`. -/

/-- The comma-joined rendering `", "` used by the printers' loops. -/
def joinComma : List String → String
  | [] => ""
  | [s] => s
  | s :: rest => s ++ ", " ++ joinComma rest

/-- `to_string(Binary_op::Op_type)`. -/
def opToString : OpType → String
  | OpType.EQ => "="
  | OpType.NEQ => "<>"
  | OpType.LT => "<"
  | OpType.GT => ">"
  | OpType.LTE => "<="
  | OpType.GTE => ">="
  | OpType.ADD => "+"
  | OpType.SUBTRACT => "-"
  | OpType.MULTIPLY => "*"
  | OpType.DIVIDE => "/"
  | OpType.MOD => "%"
  | OpType.AND => "AND"
  | OpType.OR => "OR"
  | OpType.LIKE => "LIKE"
  | OpType.IN => "IN"
  | OpType.COMMA => ","

/-- `Literal::to_string`: string literals are re-quoted with plain single
quotes and no re-escaping. -/
def litToString (t : LitType) (v : String) : String :=
  match t with
  | LitType.null => "NULL"
  | LitType.integer => v
  | LitType.floating => v
  | LitType.string => "'" ++ v ++ "'"
  | LitType.boolean => v

/-- `Column_ref::to_string`. -/
def colRefToString (c : ColRef) : String :=
  (match c.tableName with
   | none => ""
   | some t => t ++ ".")
  ++ c.columnName
  ++ (match c.aliasName with
      | none => ""
      | some a => " AS " ++ a)

/-- `Base_table_ref::to_string`, the printer matching the table references
this parser builds. -/
def tableRefToString (t : TableRef) : String :=
  (match t.schemaName with
   | none => ""
   | some s => s ++ ".")
  ++ t.tableName
  ++ (match t.aliasName with
      | none => ""
      | some a => " AS " ++ a)

/-- `Order_by_item::to_string`. -/
def orderByItemToString (it : OrderByItem) : String :=
  colRefToString it.column
  ++ (if it.ascending then "" else " DESC")
  ++ (match it.nulls with
      | none => ""
      | some n => " NULLS " ++ n)

/-- `to_string(Window_spec::Frame::Type)`. -/
def frameTypeToString : FrameType → String
  | FrameType.rows => "ROWS"
  | FrameType.range => "RANGE"
  | FrameType.groups => "GROUPS"

/-- `to_string(Window_spec::Frame::Bound::Type)`. -/
def boundTypeToString : BoundType → String
  | BoundType.currentRow => "CURRENT ROW"
  | BoundType.unboundedPreceding => "UNBOUNDED PRECEDING"
  | BoundType.unboundedFollowing => "UNBOUNDED FOLLOWING"
  | BoundType.preceding => "PRECEDING"
  | BoundType.following => "FOLLOWING"

/-- `to_string(Window_spec::Frame::Exclude)`. -/
def excludeToString : FrameExclude → String
  | FrameExclude.noOthers => "NO OTHERS"
  | FrameExclude.currentRow => "CURRENT ROW"
  | FrameExclude.group => "GROUP"
  | FrameExclude.ties => "TIES"

/-- The `m_end.m_offset != m_start.m_offset` comparison in
`Window_spec::Frame::to_string` compares raw `unique_ptr`s: two pointers are
equal exactly when both are null (distinct allocations otherwise). -/
def offsetPtrEq (a b : Option Ast) : Bool :=
  a.isNone && b.isNone

mutual

/-- `Ast_base::to_string` dispatch over the expression nodes. -/
def astToString : Ast → Option String
  | Ast.literal t v => some (litToString t v)
  | Ast.columnRef c => some (colRefToString c)
  | Ast.binaryOp op l r => do
    let ls ← optAstToString l
    let rs ← optAstToString r
    some (ls ++ " " ++ opToString op ++ " " ++ rs)
  | Ast.functionCall name args distinct star window => do
    let inner ←
      if star then some "*"
      else do
        let argStrs ← argListToString args
        some ((if distinct then "DISTINCT " else "") ++ joinComma argStrs)
    let base := name ++ "(" ++ inner ++ ")"
    match window with
    | none => some base
    | some w => do
      let ws ← windowSpecToString w
      some (base ++ " OVER " ++ ws)

/-- Dereference of an expression child (`ptr->to_string()`): null crashes. -/
def optAstToString : Option Ast → Option String
  | none => none
  | some a => astToString a

/-- The argument printing loop of `Function_call::to_string`. -/
def argListToString : List (Option Ast) → Option (List String)
  | [] => some []
  | a :: rest => do
    let s ← optAstToString a
    let ss ← argListToString rest
    some (s :: ss)

/-- `Window_spec::to_string` with its `need_space` bookkeeping (no space is
inserted after a named reference or before PARTITION BY). -/
def windowSpecToString : WindowSpec → Option String
  | WindowSpec.mk referenceName partitionCols order frame => do
    let s0 := "(" ++ (match referenceName with
                      | none => ""
                      | some n => n)
    let (s1, needSpace1) :=
      match partitionCols with
      | none => (s0, false)
      | some cols =>
        (s0 ++ "PARTITION BY " ++ joinComma (cols.map colRefToString), true)
    let (s2, needSpace2) :=
      if order.isEmpty then (s1, needSpace1)
      else
        (s1 ++ (if needSpace1 then " " else "") ++ "ORDER BY "
          ++ joinComma (order.map orderByItemToString), true)
    let s3 ←
      match frame with
      | none => some s2
      | some f => do
        let fs ← frameToString f
        some (s2 ++ (if needSpace2 then " " else "") ++ fs)
    some (s3 ++ ")")

/-- `Window_spec::Frame::to_string`. -/
def frameToString : Frame → Option String
  | Frame.mk ftype fstart fend exclude => do
    let ss ← frameBoundToString fstart
    let startType := match fstart with | FrameBound.mk t _ => t
    let startOffset := match fstart with | FrameBound.mk _ o => o
    let endType := match fend with | FrameBound.mk t _ => t
    let endOffset := match fend with | FrameBound.mk _ o => o
    let base := frameTypeToString ftype ++ ss
    let base ←
      if endType ≠ startType ∨ ¬ offsetPtrEq endOffset startOffset then do
        let es ← frameBoundToString fend
        some (base ++ " AND " ++ es)
      else
        some base
    match exclude with
    | none => some base
    | some e => some (base ++ " EXCLUDE " ++ excludeToString e)

/-- `Window_spec::Frame::Bound::to_string`. -/
def frameBoundToString : FrameBound → Option String
  | FrameBound.mk btype offset => do
    let prefixStr ←
      if (btype = BoundType.preceding ∨ btype = BoundType.following) ∧ offset.isSome then
        optAstToString offset
      else
        some ""
    some (prefixStr ++ boundTypeToString btype)

end

/-- `Where_clause::to_string`. -/
def whereToString (w : WhereClause) : Option String :=
  match w.condition with
  | none => some ""
  | some c => do
    let cs ← astToString c
    some ("WHERE " ++ cs)

/-- `Group_by::to_string`. -/
def groupByToString (g : GroupBy) : Option String := do
  let base := "GROUP BY " ++ joinComma (g.columns.map colRefToString)
  match g.having with
  | none => some base
  | some h => do
    let hs ← astToString h
    some (base ++ "\nHAVING " ++ hs)

/-- `Select_stmt::to_string`, including the duplicated `"\nORDER BY "`. -/
def selectToString (s : SelectStmt) : Option String := do
  let colStrs ← argListToString s.columns
  let base :=
    "SELECT " ++ (if s.distinct then "DISTINCT " else "") ++ joinComma colStrs
    ++ "\nFROM " ++ joinComma (s.fromTables.map tableRefToString)
  let base ←
    match s.whereClause with
    | none => some base
    | some w => do
      let ws ← whereToString w
      some (base ++ "\n" ++ ws)
  let base ←
    match s.groupBy with
    | none => some base
    | some g => do
      let gs ← groupByToString g
      some (base ++ "\n" ++ gs)
  let base :=
    if s.orderBy.isEmpty then base
    else
      base ++ "\nORDER BY " ++ "\nORDER BY "
        ++ joinComma (s.orderBy.map orderByItemToString)
  let base :=
    match s.limit with
    | none => base
    | some n => base ++ "\nLIMIT " ++ Nat.repr n
  some base

/-! ## Projections and probe states used by the verification -/

/-- Type and text of the first lexeme of an input. -/
def lexHeadWord (s : String) : Except String (LexemeType × String) :=
  ((Lexer.start s.data).nextToken).map (fun r => (r.1.type, r.1.value))

/-- `to_string` of the `Select_stmt` a successful parse produced. -/
def printedSelect : Except String AstNode → Option String
  | Except.ok (AstNode.selectNode s) => selectToString s
  | _ => none

/-- Table name and alias of each FROM entry of a parsed `Select_stmt`. -/
def fromAliases : Except String AstNode → Option (List (String × Option String))
  | Except.ok (AstNode.selectNode s) =>
    some (s.fromTables.map (fun t => (t.tableName, t.aliasName)))
  | _ => none

/-- Type and text of the lexeme `parse` left current (unconsumed input). -/
def restLexeme : Except String (AstNode × LexemeType × String) →
    Option (LexemeType × String)
  | Except.ok (_, t, v) => some (t, v)
  | _ => none

/-- WHERE condition of the `Select_stmt` a successful parse produced. -/
def whereOfRest : Except String (AstNode × LexemeType × String) → Option Ast
  | Except.ok (AstNode.selectNode s, _, _) =>
    match s.whereClause with
    | some w => w.condition
    | none => none
  | _ => none

/-- Run `parse_data_type` over an input, as the column grammar reaches it. -/
def parseDataTypeSql (s : String) : Except String DataType := do
  let p ← Parser.init s.data
  let (d, _) ← Parser.parseDataType ampleFuel p
  pure d

/-- Modelled from the spec (§4.1 classification rule 3): scan the characters
after the opening quote, copying until a terminating `'`; a `\` followed by
any character decodes to that character; two consecutive `'` decode to one
`'`; reaching the end of input without a terminating quote is an
unterminated literal and fails.  Returns the decoded contents and the
characters remaining after the closing quote. -/
def specStringDecode : List Char → Option (List Char × List Char)
  | [] => none
  | '\\' :: c :: cs => (specStringDecode cs).map (fun r => (c :: r.1, r.2))
  | '\'' :: '\'' :: cs => (specStringDecode cs).map (fun r => ('\'' :: r.1, r.2))
  | '\'' :: cs => some ([], cs)
  | c :: cs => (specStringDecode cs).map (fun r => (c :: r.1, r.2))

/-- The parser's primitive operations named by the spec: `advance`, the two
`match` forms, the two `expect` forms, `peek`, `backup`. -/
inductive PrimOp where
  | advanceOp
  | matchOp (t : LexemeType)
  | matchVOp (t : LexemeType) (v : String)
  | expectOp (t : LexemeType)
  | expectVOp (t : LexemeType) (v : String)
  | peekOp (n : Nat)
  | backupOp
deriving DecidableEq, Repr

/-- Effect of one primitive operation on the parser state (the Boolean or
lexeme results of `match`/`peek` are discarded; the state change is kept). -/
def stepOp : PrimOp → Parser → Except String Parser
  | PrimOp.advanceOp, p => p.advance
  | PrimOp.matchOp t, p => (p.matchType t).map Prod.snd
  | PrimOp.matchVOp t v, p => (p.matchTV t v).map Prod.snd
  | PrimOp.expectOp t, p => p.expectType t
  | PrimOp.expectVOp t v, p => p.expectTV t v
  | PrimOp.peekOp n, p => (p.peek n).map Prod.snd
  | PrimOp.backupOp, p => p.backup

/-- A sequence of primitive operations, each feeding the next. -/
def runOps : List PrimOp → Parser → Except String Parser
  | [], p => Except.ok p
  | o :: os, p =>
    match stepOp o p with
    | Except.error e => Except.error e
    | Except.ok q => runOps os q

/-- The parser state right after `Parser.init "a b c"`. -/
def savePointP : Parser :=
  ⟨⟨1, 1, 2, "a b c".data⟩,
   [⟨0, ⟨LexemeType.IDENTIFIER, "a", 1, 1⟩, ⟨LexemeType.UNDEFINED, "", 0, 0⟩, 1, 1⟩]⟩

/-- The state reached from `savePointP` by `save_state` then one `advance`. -/
def savePointQ : Parser :=
  ⟨⟨3, 1, 4, "a b c".data⟩,
   [⟨0, ⟨LexemeType.IDENTIFIER, "b", 1, 3⟩, ⟨LexemeType.IDENTIFIER, "a", 1, 1⟩, 1, 1⟩,
    ⟨0, ⟨LexemeType.IDENTIFIER, "a", 1, 1⟩, ⟨LexemeType.UNDEFINED, "", 0, 0⟩, 1, 1⟩]⟩

/-- The state after `restore_state`: the stack is back to the save point but
the lexer cursor is not. -/
def savePointR : Parser :=
  ⟨⟨3, 1, 4, "a b c".data⟩,
   [⟨0, ⟨LexemeType.IDENTIFIER, "a", 1, 1⟩, ⟨LexemeType.UNDEFINED, "", 0, 0⟩, 1, 1⟩]⟩

/-- The parser state right after `Parser.init "a b"`. -/
def peekProbeP : Parser :=
  ⟨⟨1, 1, 2, "a b".data⟩,
   [⟨0, ⟨LexemeType.IDENTIFIER, "a", 1, 1⟩, ⟨LexemeType.UNDEFINED, "", 0, 0⟩, 1, 1⟩]⟩

/-- The lexeme returned by `peek 1` from `peekProbeP`. -/
def peekLexemeB : Lexeme := ⟨LexemeType.IDENTIFIER, "b", 1, 3⟩

/-- The parser state after `peek 1` from `peekProbeP`: byte position and
current lexeme are restored, but the previous lexeme was overwritten and the
lexer's column counter advanced. -/
def peekProbeQ : Parser :=
  ⟨⟨1, 1, 4, "a b".data⟩,
   [⟨0, ⟨LexemeType.IDENTIFIER, "a", 1, 1⟩, ⟨LexemeType.IDENTIFIER, "a", 1, 1⟩, 1, 1⟩]⟩

/-- A parser state whose current lexeme is the OPERATOR `<>`. -/
def opProbe : Parser :=
  ⟨Lexer.start [], [{ pos := 0, lexeme := { type := LexemeType.OPERATOR, value := "<>", line := 1, col := 1 }, prev := {}, line := 1, col := 1 }]⟩

/-- A parser state whose current lexeme is the KEYWORD `AND`. -/
def kwProbe : Parser :=
  ⟨Lexer.start [], [{ pos := 0, lexeme := { type := LexemeType.KEYWORD, value := "AND", line := 1, col := 1 }, prev := {}, line := 1, col := 1 }]⟩

/-! ## Supporting instances and lemmas -/

deriving instance DecidableEq for Except

/-- A `takeWhile` over a list all of whose elements satisfy the predicate
takes the whole list. -/
theorem takeWhile_all {p : Char → Bool} :
    ∀ {l : List Char}, (∀ x ∈ l, p x = true) → l.takeWhile p = l := by
  intro l
  induction l with
  | nil => intro _; rfl
  | cons c cs ih =>
    intro h
    have hc : p c = true := h c (List.mem_cons_self c cs)
    simp [List.takeWhile, hc]
    intro x hx
    exact h x (List.mem_cons_of_mem c hx)

/-- The six characters accepted by `isSpaceC`. -/
theorem isSpaceC_cases {c : Char} (h : isSpaceC c = true) :
    c = ' ' ∨ c = '\t' ∨ c = '\n' ∨ c = '\x0b' ∨ c = '\x0c' ∨ c = '\r' := by
  unfold isSpaceC at h
  simp only [Bool.or_eq_true, decide_eq_true_eq] at h
  tauto

/-- An identifier-start character is not whitespace. -/
theorem identStart_not_space {c : Char} (hc : isAlphaC c = true ∨ c = '_') :
    isSpaceC c = false := by
  by_contra hne
  have hsp : isSpaceC c = true := by
    cases hb : isSpaceC c with
    | true => rfl
    | false => exact absurd hb hne
  rcases isSpaceC_cases hsp with rfl | rfl | rfl | rfl | rfl | rfl <;>
    rcases hc with h | h <;> simp [isAlphaC] at h

/-- An alphabetic character is an identifier character. -/
theorem alpha_isIdentChar {c : Char} (h : isAlphaC c = true) :
    isIdentChar c = true := by
  unfold isIdentChar isAlnumC
  simp [h]

/-! ## Lemmas about the string-literal decoding model -/

/-- The remainder reported by `specStringDecode` is a suffix-length bound. -/
theorem specStringDecode_rest_le :
    ∀ cs r, specStringDecode cs = some r → r.2.length ≤ cs.length := by
  intro cs
  induction cs using specStringDecode.induct with
  | case1 =>
    intro r h
    simp [specStringDecode] at h
  | case2 c cs ih =>
    intro r h
    cases hsc : specStringDecode cs with
    | none => simp [specStringDecode, hsc] at h
    | some r0 =>
      simp only [specStringDecode, hsc, Option.map_some'] at h
      cases h
      have := ih r0 hsc
      simp
      omega
  | case3 cs ih =>
    intro r h
    cases hsc : specStringDecode cs with
    | none => simp [specStringDecode, hsc] at h
    | some r0 =>
      simp only [specStringDecode, hsc, Option.map_some'] at h
      cases h
      have := ih r0 hsc
      simp
      omega
  | case4 cs h1 =>
    intro r h
    simp only [specStringDecode] at h
    cases h
    simp
  | case5 c cs h1 h2 h3 ih =>
    intro r h
    cases hsc : specStringDecode cs with
    | none => simp [specStringDecode, hsc] at h
    | some r0 =>
      simp only [specStringDecode, hsc, Option.map_some'] at h
      cases h
      have := ih r0 hsc
      simp
      omega

/-- The loop of `Lexer::lex_string` computes exactly the spec-modelled
decoding, with the consumed-character count determined by the remainder. -/
theorem lexStrCore_eq_spec :
    ∀ cs, lexStrCore cs =
      (specStringDecode cs).map (fun r => (r.1, cs.length - r.2.length)) := by
  intro cs
  induction cs using specStringDecode.induct with
  | case1 => rfl
  | case2 c cs ih =>
    cases hsc : specStringDecode cs with
    | none =>
      have hlex : lexStrCore cs = none := by rw [ih, hsc]; rfl
      simp [lexStrCore, specStringDecode, hsc, hlex]
    | some r =>
      have hle := specStringDecode_rest_le cs r hsc
      have hlex : lexStrCore cs = some (r.1, cs.length - r.2.length) := by
        rw [ih, hsc]; rfl
      simp [lexStrCore, specStringDecode, hsc, hlex]
      omega
  | case3 cs ih =>
    cases hsc : specStringDecode cs with
    | none =>
      have hlex : lexStrCore cs = none := by rw [ih, hsc]; rfl
      simp [lexStrCore, specStringDecode, hsc, hlex]
    | some r =>
      have hle := specStringDecode_rest_le cs r hsc
      have hlex : lexStrCore cs = some (r.1, cs.length - r.2.length) := by
        rw [ih, hsc]; rfl
      simp [lexStrCore, specStringDecode, hsc, hlex]
      omega
  | case4 cs h1 =>
    simp [lexStrCore, specStringDecode]
  | case5 c cs h1 h2 h3 ih =>
    cases hsc : specStringDecode cs with
    | none =>
      have hlex : lexStrCore cs = none := by rw [ih, hsc]; rfl
      simp [lexStrCore, specStringDecode, hsc, hlex]
    | some r =>
      have hle := specStringDecode_rest_le cs r hsc
      have hlex : lexStrCore cs = some (r.1, cs.length - r.2.length) := by
        rw [ih, hsc]; rfl
      simp [lexStrCore, specStringDecode, hsc, hlex]
      omega

/-! ## Claim C8 -/

/-- C8: string-literal lexing.  For every input whose next character opens a
quoted literal, the lexer emits a STRING_LITERAL lexeme whose text is the
decoded contents without the surrounding quotes — two consecutive quotes
decode to one quote, a backslash followed by any character decodes to that
character — and it fails with "Unterminated string literal" exactly when the
spec-modelled decoding finds no terminating quote before the end of input. -/
theorem C8_string_literal_lexing (cs : List Char) :
    (Lexer.start ('\'' :: cs)).nextToken =
      match specStringDecode cs with
      | none => Except.error "Unterminated string literal"
      | some r =>
        Except.ok
          ({ type := LexemeType.STRING_LITERAL, value := String.mk r.1,
             line := 1, col := 1 },
           { pos := 1 + (cs.length - r.2.length), line := 1,
             col := 1 + (cs.length - r.2.length), input := '\'' :: cs }) := by
  have hq1 : isAlphaC '\'' = false := by decide
  have hq2 : ('\'' = '_') = False := by simp
  have hq3 : isDigitC '\'' = false := by decide
  have hq4 : isSpaceC '\'' = false := by decide
  cases hsc : specStringDecode cs with
  | none =>
    have hlex : lexStrCore cs = none := by rw [lexStrCore_eq_spec, hsc]; rfl
    simp [Lexer.nextToken, Lexer.start, Lexer.skipWhitespace, skipWsCore,
          Lexer.lexString, hlex, hq1, hq2, hq3, hq4]
  | some r =>
    have hlex : lexStrCore cs = some (r.1, cs.length - r.2.length) := by
      rw [lexStrCore_eq_spec, hsc]; rfl
    simp [Lexer.nextToken, Lexer.start, Lexer.skipWhitespace, skipWsCore,
          Lexer.lexString, hlex, hq1, hq2, hq3, hq4]

/-! ## Stack-shape lemmas for the primitive operations -/

/-- `advance` rewrites only the top of the state stack: the rest of the
stack and its length are unchanged. -/
theorem advance_stack {p q : Parser} (h : p.advance = Except.ok q) :
    q.stack.tail = p.stack.tail ∧ q.stack.length = p.stack.length := by
  simp only [Parser.advance] at h
  split at h
  · exact absurd h (by simp)
  · rename_i st rest hs
    split at h
    · exact absurd h (by simp)
    · rename_i lexeme lx2 hnt
      cases h
      simp [hs]

/-- `advanceN` preserves the stack below the top. -/
theorem advanceN_stack :
    ∀ (n : Nat) {p q : Parser}, Parser.advanceN n p = Except.ok q →
      q.stack.tail = p.stack.tail ∧ q.stack.length = p.stack.length := by
  intro n
  induction n with
  | zero =>
    intro p q h
    cases h
    exact ⟨rfl, rfl⟩
  | succ n ih =>
    intro p q h
    unfold Parser.advanceN at h
    split at h
    · exact absurd h (by simp)
    · rename_i q1 hadv
      have h1 := advance_stack hadv
      have h2 := ih h
      exact ⟨h2.1.trans h1.1, h2.2.trans h1.2⟩

/-- `peek` preserves the stack below the top. -/
theorem peek_stack {n : Nat} {p : Parser} {l : Lexeme} {q : Parser}
    (h : p.peek n = Except.ok (l, q)) :
    q.stack.tail = p.stack.tail ∧ q.stack.length = p.stack.length := by
  unfold Parser.peek at h
  split at h
  · exact absurd h (by simp)
  · rename_i st rest hs
    split at h
    · exact absurd h (by simp)
    · rename_i r hadv
      split at h
      · exact absurd h (by simp)
      · rename_i st2 rest2 hr
        cases h
        have h1 := advanceN_stack n hadv
        rw [hr] at h1
        simp at h1 ⊢
        exact h1

/-- `matchType` preserves the stack below the top. -/
theorem matchType_stack {t : LexemeType} {p : Parser} {r : Bool × Parser}
    (h : p.matchType t = Except.ok r) :
    r.2.stack.tail = p.stack.tail ∧ r.2.stack.length = p.stack.length := by
  unfold Parser.matchType at h
  split at h
  · exact absurd h (by simp)
  · rename_i st rest hs
    split at h
    · split at h
      · exact absurd h (by simp)
      · rename_i q hadv
        cases h
        exact advance_stack hadv
    · cases h
      exact ⟨rfl, rfl⟩

/-- `matchTV` preserves the stack below the top. -/
theorem matchTV_stack {t : LexemeType} {v : String} {p : Parser} {r : Bool × Parser}
    (h : p.matchTV t v = Except.ok r) :
    r.2.stack.tail = p.stack.tail ∧ r.2.stack.length = p.stack.length := by
  unfold Parser.matchTV at h
  split at h
  · exact absurd h (by simp)
  · rename_i st rest hs
    split at h
    · split at h
      · exact absurd h (by simp)
      · rename_i q hadv
        cases h
        exact advance_stack hadv
    · cases h
      exact ⟨rfl, rfl⟩

/-- `expectType` preserves the stack below the top. -/
theorem expectType_stack {t : LexemeType} {p q : Parser}
    (h : p.expectType t = Except.ok q) :
    q.stack.tail = p.stack.tail ∧ q.stack.length = p.stack.length := by
  unfold Parser.expectType at h
  split at h
  · exact absurd h (by simp)
  · rename_i st rest hs
    split at h
    · exact advance_stack h
    · exact absurd h (by simp)

/-- `expectTV` preserves the stack below the top. -/
theorem expectTV_stack {t : LexemeType} {v : String} {p q : Parser}
    (h : p.expectTV t v = Except.ok q) :
    q.stack.tail = p.stack.tail ∧ q.stack.length = p.stack.length := by
  unfold Parser.expectTV at h
  split at h
  · exact absurd h (by simp)
  · rename_i st rest hs
    split at h
    · exact advance_stack h
    · exact absurd h (by simp)

/-- `backup` preserves the stack below the top. -/
theorem backup_stack {p q : Parser} (h : p.backup = Except.ok q) :
    q.stack.tail = p.stack.tail ∧ q.stack.length = p.stack.length := by
  unfold Parser.backup at h
  split at h
  · exact absurd h (by simp)
  · rename_i st rest hs
    split at h
    · exact absurd h (by simp)
    · cases h
      simp [hs]

/-- Every primitive operation rewrites only the top of the state stack. -/
theorem stepOp_stack {o : PrimOp} {p q : Parser} (h : stepOp o p = Except.ok q) :
    q.stack.tail = p.stack.tail ∧ q.stack.length = p.stack.length := by
  cases o with
  | advanceOp => exact advance_stack (by simpa only [stepOp] using h)
  | matchOp t =>
    simp only [stepOp] at h
    cases hm : p.matchType t with
    | error e => rw [hm] at h; exact absurd h (by simp [Except.map])
    | ok r =>
      rw [hm] at h
      simp [Except.map] at h
      cases h
      exact matchType_stack hm
  | matchVOp t v =>
    simp only [stepOp] at h
    cases hm : p.matchTV t v with
    | error e => rw [hm] at h; exact absurd h (by simp [Except.map])
    | ok r =>
      rw [hm] at h
      simp [Except.map] at h
      cases h
      exact matchTV_stack hm
  | expectOp t => exact expectType_stack (by simpa only [stepOp] using h)
  | expectVOp t v => exact expectTV_stack (by simpa only [stepOp] using h)
  | peekOp n =>
    simp only [stepOp] at h
    cases hm : p.peek n with
    | error e => rw [hm] at h; exact absurd h (by simp [Except.map])
    | ok r =>
      rw [hm] at h
      simp [Except.map] at h
      cases h
      obtain ⟨l, q1⟩ := r
      exact peek_stack hm
  | backupOp => exact backup_stack (by simpa only [stepOp] using h)

/-- A whole sequence of primitive operations rewrites only the top of the
state stack. -/
theorem runOps_stack :
    ∀ (ops : List PrimOp) {p q : Parser}, runOps ops p = Except.ok q →
      q.stack.tail = p.stack.tail ∧ q.stack.length = p.stack.length := by
  intro ops
  induction ops with
  | nil =>
    intro p q h
    cases h
    exact ⟨rfl, rfl⟩
  | cons o os ih =>
    intro p q h
    unfold runOps at h
    split at h
    · exact absurd h (by simp)
    · rename_i q1 hstep
      have h1 := stepOp_stack hstep
      have h2 := ih h
      exact ⟨h2.1.trans h1.1, h2.2.trans h1.2⟩

/-! ## Claim C3 -/

/-- C3, counterexample: `restore_state` does not restore the lexer's
position cursor or coordinates.  On input `a b c`, after `save_state`, one
`advance`, and `restore_state` with the returned id, the current and previous
lexeme are back at the save point, but the lexer's byte position and column
are not, and the next `advance` observably skips the lexeme `b`, yielding `c`
where re-running from the save point yields `b`. -/
theorem C3_save_restore_counterexample :
    Parser.init "a b c".data = Except.ok savePointP ∧
    runOps [PrimOp.advanceOp] (savePointP.saveState).2 = Except.ok savePointQ ∧
    Parser.restoreState (savePointP.saveState).1 savePointQ = Except.ok savePointR ∧
    savePointR.cur = savePointP.cur ∧
    savePointR.prevLexeme = savePointP.prevLexeme ∧
    savePointR.lexer.pos ≠ savePointP.lexer.pos ∧
    savePointR.lexer.col ≠ savePointP.lexer.col ∧
    Except.map Parser.cur savePointR.advance ≠ Except.map Parser.cur savePointP.advance := by
  decide!

/-- C3 amended: after `save_state` and any successful sequence of the
primitive operations `advance`, `match`, `expect`, `peek`, `backup`,
`restore_state` with the returned id restores the state-stack portion of the
parser state — the stack, and with it the current lexeme, the previous lexeme
and the saved position fields, are exactly as at the save point — but the
lexer's cursor and coordinates are left wherever the operations moved them. -/
theorem C3_save_restore_amended (p q : Parser) (ops : List PrimOp)
    (h0 : p.stack ≠ []) (h : runOps ops (p.saveState).2 = Except.ok q) :
    Parser.restoreState (p.saveState).1 q = Except.ok ⟨q.lexer, p.stack⟩ ∧
    (Parser.mk q.lexer p.stack).cur = p.cur ∧
    (Parser.mk q.lexer p.stack).prevLexeme = p.prevLexeme := by
  cases hs : p.stack with
  | nil => exact absurd hs h0
  | cons st rest =>
    have hsave2 : (p.saveState).2 = ⟨p.lexer, st :: st :: rest⟩ := by
      simp [Parser.saveState, hs]
    have hsave1 : (p.saveState).1 = (st :: rest).length := by
      simp [Parser.saveState, hs]
    rw [hsave2] at h
    obtain ⟨htail, hlen⟩ := runOps_stack ops h
    simp only [List.tail_cons, List.length_cons] at htail hlen
    refine ⟨?_, ?_, ?_⟩
    · unfold Parser.restoreState
      rw [hsave1]
      have hlt : ¬ ((st :: rest).length ≥ q.stack.length) := by
        simp only [List.length_cons]
        omega
      rw [if_neg hlt]
      have hdrop : q.stack.length - (st :: rest).length = 1 := by
        simp only [List.length_cons]
        omega
      rw [hdrop, List.drop_one, htail]
    · simp [Parser.cur, hs]
    · simp [Parser.prevLexeme, hs]

/-- C3 witness: the amended theorem applied to the save point on input
`a b c` with the operation sequence `[advance]`. -/
theorem C3_save_restore_amended_witness :
    runOps [PrimOp.advanceOp] (savePointP.saveState).2 = Except.ok savePointQ ∧
    Parser.restoreState (savePointP.saveState).1 savePointQ =
      Except.ok ⟨savePointQ.lexer, savePointP.stack⟩ :=
  ⟨by decide!,
   (C3_save_restore_amended savePointP savePointQ [PrimOp.advanceOp]
     (by decide) (by decide!)).1⟩

/-! ## Claim C9 -/

/-- C9, counterexample: `peek` is not observation-only.  On input `a b`,
`peek 1` returns the following lexeme `b` and restores the current lexeme and
the lexer's byte position, but the previous lexeme changes from UNDEFINED to
`a` and the lexer's column counter changes from 2 to 4. -/
theorem C9_peek_counterexample :
    Parser.init "a b".data = Except.ok peekProbeP ∧
    peekProbeP.peek 1 = Except.ok (peekLexemeB, peekProbeQ) ∧
    peekProbeQ.cur = peekProbeP.cur ∧
    peekProbeQ.lexer.pos = peekProbeP.lexer.pos ∧
    peekProbeQ.prevLexeme ≠ peekProbeP.prevLexeme ∧
    peekProbeQ.lexer.col ≠ peekProbeP.lexer.col := by
  decide!

/-- C9 amended: whenever `peek n` succeeds it returns the lexeme that `n`
consecutive `advance`s would make current, and it leaves the current lexeme
and the lexer's byte position unchanged; the previous lexeme and the lexer's
line/column coordinates are not restored. -/
theorem C9_peek_amended (p : Parser) (n : Nat) (l : Lexeme) (q : Parser)
    (h : p.peek n = Except.ok (l, q)) :
    q.lexer.pos = p.lexer.pos ∧ q.cur = p.cur ∧
    ∃ r, Parser.advanceN n p = Except.ok r ∧ l = r.cur := by
  unfold Parser.peek at h
  split at h
  · exact absurd h (by simp)
  · rename_i st rest hs
    split at h
    · exact absurd h (by simp)
    · rename_i r hadv
      split at h
      · exact absurd h (by simp)
      · rename_i st2 rest2 hr
        cases h
        refine ⟨rfl, ?_, r, hadv, ?_⟩
        · simp [Parser.cur, hs]
        · simp [Parser.cur, hr]

/-- C9 witness: the amended theorem applied to `peek 1` on input `a b`. -/
theorem C9_peek_amended_witness :
    peekProbeP.peek 1 = Except.ok (peekLexemeB, peekProbeQ) ∧
    (peekProbeQ.lexer.pos = peekProbeP.lexer.pos ∧
     peekProbeQ.cur = peekProbeP.cur ∧
     ∃ r, Parser.advanceN 1 peekProbeP = Except.ok r ∧ peekLexemeB = r.cur) :=
  ⟨by decide!, C9_peek_amended peekProbeP 1 peekLexemeB peekProbeQ (by decide!)⟩

/-! ## Claim C4 -/

/-- C4, counterexample: the lexer's keyword set contains none of the
DDL-specific words, so every word the claim lists as DDL-specific — TABLE,
INDEX, VIEW, CREATE, DROP, ALTER, TRUNCATE, MERGE, GRANT, REVOKE, IF, EXISTS,
VALUES, INTO — is classified IDENTIFIER, not KEYWORD (while e.g. SELECT is a
KEYWORD). -/
theorem C4_ddl_keywords_counterexample :
    lexHeadWord "TABLE" = Except.ok (LexemeType.IDENTIFIER, "TABLE") ∧
    lexHeadWord "INDEX" = Except.ok (LexemeType.IDENTIFIER, "INDEX") ∧
    lexHeadWord "VIEW" = Except.ok (LexemeType.IDENTIFIER, "VIEW") ∧
    lexHeadWord "CREATE" = Except.ok (LexemeType.IDENTIFIER, "CREATE") ∧
    lexHeadWord "DROP" = Except.ok (LexemeType.IDENTIFIER, "DROP") ∧
    lexHeadWord "ALTER" = Except.ok (LexemeType.IDENTIFIER, "ALTER") ∧
    lexHeadWord "TRUNCATE" = Except.ok (LexemeType.IDENTIFIER, "TRUNCATE") ∧
    lexHeadWord "MERGE" = Except.ok (LexemeType.IDENTIFIER, "MERGE") ∧
    lexHeadWord "GRANT" = Except.ok (LexemeType.IDENTIFIER, "GRANT") ∧
    lexHeadWord "REVOKE" = Except.ok (LexemeType.IDENTIFIER, "REVOKE") ∧
    lexHeadWord "IF" = Except.ok (LexemeType.IDENTIFIER, "IF") ∧
    lexHeadWord "EXISTS" = Except.ok (LexemeType.IDENTIFIER, "EXISTS") ∧
    lexHeadWord "VALUES" = Except.ok (LexemeType.IDENTIFIER, "VALUES") ∧
    lexHeadWord "INTO" = Except.ok (LexemeType.IDENTIFIER, "INTO") ∧
    lexHeadWord "SELECT" = Except.ok (LexemeType.KEYWORD, "SELECT") := by
  decide!

/-- C4 amended: the lexer classifies an identifier-shaped word as KEYWORD
exactly when its ASCII upper-casing is in the fixed 43-word set
`AND … WITHOUT`, in any letter casing and preserving the original casing in
the lexeme text; every other identifier-shaped word — including all the
DDL-specific words the claim lists — is classified IDENTIFIER. -/
theorem C4_keyword_classification_amended (c : Char) (cs : List Char)
    (hc : isAlphaC c = true ∨ c = '_')
    (hcs : ∀ x ∈ cs, isIdentChar x = true) :
    (Lexer.start (c :: cs)).nextToken =
      Except.ok
        ({ type := if keywords.contains (asciiUpper (String.mk (c :: cs))) then
                     LexemeType.KEYWORD
                   else LexemeType.IDENTIFIER,
           value := String.mk (c :: cs), line := 1, col := 1 },
         { pos := (c :: cs).length, line := 1, col := 1 + (c :: cs).length,
           input := c :: cs }) := by
  have hns : isSpaceC c = false := identStart_not_space hc
  have hstart : (isAlphaC c || c = '_') = true := by
    rcases hc with h | h
    · simp [h]
    · simp [h]
  have hidc : isIdentChar c = true := by
    rcases hc with h | h
    · exact alpha_isIdentChar h
    · simp [isIdentChar, h]
  have hall : ∀ x ∈ c :: cs, isIdentChar x = true := by
    intro x hx
    rcases List.mem_cons.mp hx with rfl | hx
    · exact hidc
    · exact hcs x hx
  have htake : (c :: cs).takeWhile isIdentChar = c :: cs := takeWhile_all hall
  simp [Lexer.nextToken, Lexer.start, Lexer.skipWhitespace, skipWsCore, hns,
        hstart, Lexer.lexIdentifier, htake]

/-- C4 witness: the amended theorem applied to the mixed-case word
`SeLeCt`, which upper-cases into the keyword set. -/
theorem C4_keyword_classification_amended_witness :
    (Lexer.start ('S' :: "eLeCt".data)).nextToken =
      Except.ok
        ({ type := if keywords.contains (asciiUpper (String.mk ('S' :: "eLeCt".data))) then
                     LexemeType.KEYWORD
                   else LexemeType.IDENTIFIER,
           value := String.mk ('S' :: "eLeCt".data), line := 1, col := 1 },
         { pos := ('S' :: "eLeCt".data).length, line := 1,
           col := 1 + ('S' :: "eLeCt".data).length, input := 'S' :: "eLeCt".data }) :=
  C4_keyword_classification_amended 'S' "eLeCt".data (Or.inl (by decide)) (by decide)

/-! ## Claim C1 -/

/-- C1, counterexample: `SELECT a = b FROM t u` parses with FROM alias `u`,
prints as `SELECT a = b\nFROM t AS u`, and that printed text re-parses with
FROM alias `AS` (the word `AS` is not a lexer keyword, so the table-reference
parser takes it as the alias) — so the round trip changes the AST. -/
theorem C1_roundtrip_counterexample :
    fromAliases (parseSql "SELECT a = b FROM t u") = some [("t", some "u")] ∧
    printedSelect (parseSql "SELECT a = b FROM t u") =
      some "SELECT a = b\nFROM t AS u" ∧
    fromAliases (parseSql "SELECT a = b\nFROM t AS u") = some [("t", some "AS")] := by
  decide!

/-- C1 amended: on a statement that prints no table alias the round trip does
close — `SELECT a = b FROM t` parses, prints as `SELECT a = b\nFROM t`, and the
printed text parses to the very same result. -/
theorem C1_roundtrip_amended :
    fromAliases (parseSql "SELECT a = b FROM t") = some [("t", none)] ∧
    printedSelect (parseSql "SELECT a = b FROM t") = some "SELECT a = b\nFROM t" ∧
    parseSql "SELECT a = b\nFROM t" = parseSql "SELECT a = b FROM t" := by
  decide!

/-! ## Claim C2 -/

/-- C2: the claim's own input is rejected — `parse_table_references` finishes
building the inner join (table `users` alias `u`, table `orders` alias `o`,
ON-condition parsed) and then unconditionally throws `JOINs are not
supported`, so no Select with a join in its from list is ever returned. -/
theorem C2_join_unsupported :
    parseSql "SELECT u.id, o.order_id FROM users u INNER JOIN orders o ON u.id = o.user_id" =
      Except.error "JOINs are not supported" := by
  decide!

/-! ## Claim C5 -/

/-- C5, counterexample: none of `AND`, `OR`, `LIKE`, `IN`, `-` (binary) or
the comma is folded into a BinaryOp — `parse_operator` demands an OPERATOR
lexeme before comparing text, the keyword operators arrive as KEYWORD
lexemes, and `-` and `,` have no case — so `parse_expression` stops after the
left operand (whose plain column has already been nulled by the
`dynamic_cast` in `parse_factor`, hence `ok none`). -/
theorem C5_operator_set_counterexample :
    parseExprSql "a AND b" = Except.ok none ∧
    parseExprSql "a OR b" = Except.ok none ∧
    parseExprSql "a LIKE b" = Except.ok none ∧
    parseExprSql "a - b" = Except.ok none ∧
    parseExprSql "a , b" = Except.ok none := by
  decide!

/-- C5 amended: the operators actually folded into BinaryOp nodes are exactly
the ten symbolic ones `=, <>, <, >, <=, >=, +, *, /, %`: `parse_operator`
returns an operator only on an OPERATOR lexeme (never on a KEYWORD lexeme,
which is how `AND/OR/LIKE/IN` arrive), and for each symbol in the set,
parsing `a op b` yields the BinaryOp with both children populated. -/
theorem C5_operator_set_amended :
    (∀ p : Parser, p.parseOperator ≠ none → p.cur.type = LexemeType.OPERATOR) ∧
    (∀ p : Parser, p.cur.type = LexemeType.KEYWORD → p.parseOperator = none) ∧
    parseExprSql "a = b" = Except.ok (some (Ast.binaryOp OpType.EQ
      (some (Ast.columnRef { columnName := "a" }))
      (some (Ast.columnRef { columnName := "b" })))) ∧
    parseExprSql "a <> b" = Except.ok (some (Ast.binaryOp OpType.NEQ
      (some (Ast.columnRef { columnName := "a" }))
      (some (Ast.columnRef { columnName := "b" })))) ∧
    parseExprSql "a < b" = Except.ok (some (Ast.binaryOp OpType.LT
      (some (Ast.columnRef { columnName := "a" }))
      (some (Ast.columnRef { columnName := "b" })))) ∧
    parseExprSql "a > b" = Except.ok (some (Ast.binaryOp OpType.GT
      (some (Ast.columnRef { columnName := "a" }))
      (some (Ast.columnRef { columnName := "b" })))) ∧
    parseExprSql "a <= b" = Except.ok (some (Ast.binaryOp OpType.LTE
      (some (Ast.columnRef { columnName := "a" }))
      (some (Ast.columnRef { columnName := "b" })))) ∧
    parseExprSql "a >= b" = Except.ok (some (Ast.binaryOp OpType.GTE
      (some (Ast.columnRef { columnName := "a" }))
      (some (Ast.columnRef { columnName := "b" })))) ∧
    parseExprSql "a + b" = Except.ok (some (Ast.binaryOp OpType.ADD
      (some (Ast.columnRef { columnName := "a" }))
      (some (Ast.columnRef { columnName := "b" })))) ∧
    parseExprSql "a * b" = Except.ok (some (Ast.binaryOp OpType.MULTIPLY
      (some (Ast.columnRef { columnName := "a" }))
      (some (Ast.columnRef { columnName := "b" })))) ∧
    parseExprSql "a / b" = Except.ok (some (Ast.binaryOp OpType.DIVIDE
      (some (Ast.columnRef { columnName := "a" }))
      (some (Ast.columnRef { columnName := "b" })))) ∧
    parseExprSql "a % b" = Except.ok (some (Ast.binaryOp OpType.MOD
      (some (Ast.columnRef { columnName := "a" }))
      (some (Ast.columnRef { columnName := "b" })))) := by
  refine ⟨?_, ?_, ?_, ?_, ?_, ?_, ?_, ?_, ?_, ?_, ?_, ?_⟩
  · intro p h
    by_contra ht
    simp only [Parser.parseOperator] at h
    rw [if_pos ht] at h
    exact h rfl
  · intro p h
    simp only [Parser.parseOperator]
    rw [if_pos (by rw [h]; decide)]
  all_goals decide!

/-- C5 witness: the amended theorem's two general components at concrete
parser states — the `<>` probe does hold an OPERATOR lexeme, and the keyword
probe folds nothing. -/
theorem C5_operator_set_amended_witness :
    opProbe.cur.type = LexemeType.OPERATOR ∧ kwProbe.parseOperator = none :=
  ⟨C5_operator_set_amended.1 opProbe (by decide),
   C5_operator_set_amended.2.1 kwProbe (by decide)⟩

/-! ## Claim C6 -/

/-- C6, counterexample: keyword matching is not case-insensitive end to end —
the upper-case `SELECT a FROM t` parses, but `select a from t` is rejected
with `Unexpected token at start of statement: select`, because
`parse_statement` compares the lexeme text (original casing) against the
upper-case string `"SELECT"`. -/
theorem C6_case_counterexample :
    fromAliases (parseSql "SELECT a FROM t") = some [("t", none)] ∧
    parseSql "select a from t" =
      Except.error "Unexpected token at start of statement: select" := by
  decide!

/-- C6 amended: the lexer alone is case-insensitive — it classifies `select`
as a KEYWORD while preserving the original casing in the lexeme text — but
the parser's keyword comparisons are case-sensitive against upper-case
spellings, so only upper-case keywords parse. -/
theorem C6_case_amended :
    lexHeadWord "select" = Except.ok (LexemeType.KEYWORD, "select") ∧
    lexHeadWord "SeLeCt" = Except.ok (LexemeType.KEYWORD, "SeLeCt") ∧
    parseSql "select a from t" =
      Except.error "Unexpected token at start of statement: select" ∧
    parseSql "SeLeCt a FROM t" =
      Except.error "Unexpected token at start of statement: SeLeCt" ∧
    fromAliases (parseSql "SELECT a FROM t") = some [("t", none)] := by
  decide!

/-! ## Claim C7 -/

/-- C7: the three diagnostics fire — HAVING without GROUP BY, a duplicate
WHERE clause, and VARCHAR without a length specification (via
`parse_data_type`, the only route to it, since `CREATE` does not even reach
it: the statement dispatcher rejects it first) — while a SELECT with one
WHERE, GROUP BY (with HAVING), ORDER BY and LIMIT apiece is accepted. -/
theorem C7_clause_diagnostics :
    parseSql "SELECT a FROM t HAVING a = 1" =
      Except.error "HAVING clause without GROUP BY" ∧
    parseSql "SELECT a FROM t WHERE a = 1 WHERE b = 2" =
      Except.error "Duplicate WHERE clause" ∧
    parseDataTypeSql "VARCHAR" =
      Except.error "VARCHAR requires length specification" ∧
    parseSql "CREATE TABLE t2 (a VARCHAR)" =
      Except.error "Unexpected token at start of statement: CREATE" ∧
    parseSql "SELECT a FROM t WHERE a = 1 GROUP BY a HAVING a = 1 ORDER BY a LIMIT 10" =
      Except.ok (AstNode.selectNode
        { distinct := false,
          columns := [none],
          fromTables := [{ tableName := "t" }],
          whereClause := some { condition := some (Ast.binaryOp OpType.EQ
            (some (Ast.columnRef { columnName := "a" }))
            (some (Ast.literal LitType.integer "1"))) },
          groupBy := some
            { columns := [{ columnName := "a" }],
              having := some (Ast.binaryOp OpType.EQ
                (some (Ast.columnRef { columnName := "a" }))
                (some (Ast.literal LitType.integer "1"))) },
          orderBy := [{ column := { columnName := "a" } }],
          limit := some 10 }) := by
  decide!

/-! ## Claim C10 -/

/-- C10: `parse()` is exactly `parse_statement()` — there is no end-of-input
check — and trailing tokens are silently ignored: the truncated-looking WHERE
condition `a = 1 AND b = 2` yields a successful parse whose condition is only
`a = 1` with the lexeme `AND` left current, and a second full statement after
the first is likewise left unconsumed with no diagnostic. -/
theorem C10_no_eof_check :
    (∀ (fuel : Nat) (p : Parser), Parser.parse fuel p = Parser.parseStatement fuel p) ∧
    whereOfRest (parseSqlWithRest "SELECT a FROM t WHERE a = 1 AND b = 2") =
      some (Ast.binaryOp OpType.EQ
        (some (Ast.columnRef { columnName := "a" }))
        (some (Ast.literal LitType.integer "1"))) ∧
    restLexeme (parseSqlWithRest "SELECT a FROM t WHERE a = 1 AND b = 2") =
      some (LexemeType.KEYWORD, "AND") ∧
    restLexeme (parseSqlWithRest "SELECT a FROM t SELECT b FROM u") =
      some (LexemeType.KEYWORD, "SELECT") := by
  refine ⟨fun fuel p => rfl, ?_, ?_, ?_⟩
  all_goals decide!

end SqlParser
